import Mathlib

/-!
Verification development for the craps wagering engine
(src/program/src/craps/{place_bet,settle,force_settle,claim,claim_debt}.rs,
src/api/src/state/{craps_game,craps_position}.rs, src/program/src/craps/utils.rs).

Machine integers (u64) are modelled as Nat together with explicit checked /
saturating operations mirroring the Rust `checked_*` / `saturating_*` calls.
Each on-chain instruction is modelled as a pure function returning
`Except Err`; the hosting environment commits all-or-nothing, so an
`Except.error` result corresponds to an aborted transaction with no state
change (spec section 5 assumes this atomicity from the host).
-/

/-- Largest value representable in a u64. -/
def U64MAX : Nat := 2 ^ 64 - 1

/-- Modulus for wrapping u64 arithmetic (used only where the source performs
an unchecked cast or increment). -/
def U64MOD : Nat := 2 ^ 64

/-- Model of Rust `u64::checked_add`. -/
def checkedAdd (a b : Nat) : Option Nat :=
  if a + b ≤ U64MAX then some (a + b) else none

/-- Model of Rust `u64::checked_sub`. -/
def checkedSub (a b : Nat) : Option Nat :=
  if b ≤ a then some (a - b) else none

/-- Model of Rust `u64::checked_mul`. -/
def checkedMul (a b : Nat) : Option Nat :=
  if a * b ≤ U64MAX then some (a * b) else none

/-- Model of Rust `u64::checked_div` (fails only on division by zero). -/
def checkedDiv (a b : Nat) : Option Nat :=
  if b = 0 then none else some (a / b)

/-- Model of Rust `u64::saturating_add`. -/
def satAdd (a b : Nat) : Nat := min (a + b) U64MAX

/-- Model of Rust `u64::saturating_sub` (truncated subtraction on Nat). -/
def satSub (a b : Nat) : Nat := a - b

/-- Model of Rust `u64::saturating_mul`. -/
def satMul (a b : Nat) : Nat := min (a * b) U64MAX

/-- Errors surfaced by the craps instructions (ore_api::error::OreError and
solana ProgramError variants used by the modelled code paths).
`custom 1` is ALREADY_SETTLED, `custom 2` is ROUND_NOT_EXPIRED. -/
inductive Err where
  | invalidBetAmount
  | invalidBetType
  | insufficientBankroll
  | arithmeticOverflow
  | insufficientFunds
  | invalidArgument
  | custom : Nat → Err
deriving DecidableEq, Repr

/-- Lift an Option to Except with a designated error (mirrors `.ok_or(e)?`). -/
def toE (o : Option Nat) (e : Err) : Except Err Nat :=
  match o with
  | some v => Except.ok v
  | none => Except.error e

-- ==================== CONSTANTS (src/api/src/consts.rs) ====================

def BOARD_SIZE : Nat := 36
def MAX_BET_AMOUNT : Nat := 100 * 1000000000

def PASS_LINE_PAYOUT_NUM : Nat := 1
def PASS_LINE_PAYOUT_DEN : Nat := 1
def FIELD_PAYOUT_NORMAL_NUM : Nat := 1
def FIELD_PAYOUT_NORMAL_DEN : Nat := 1
def FIELD_PAYOUT_2_12_NUM : Nat := 2
def FIELD_PAYOUT_2_12_DEN : Nat := 1
def ANY_SEVEN_PAYOUT_NUM : Nat := 4
def ANY_SEVEN_PAYOUT_DEN : Nat := 1
def ANY_CRAPS_PAYOUT_NUM : Nat := 7
def ANY_CRAPS_PAYOUT_DEN : Nat := 1
def YO_ELEVEN_PAYOUT_NUM : Nat := 15
def YO_ELEVEN_PAYOUT_DEN : Nat := 1
def ACES_PAYOUT_NUM : Nat := 30
def ACES_PAYOUT_DEN : Nat := 1
def TWELVE_PAYOUT_NUM : Nat := 30
def TWELVE_PAYOUT_DEN : Nat := 1
def PLACE_4_10_PAYOUT_NUM : Nat := 9
def PLACE_4_10_PAYOUT_DEN : Nat := 5
def PLACE_5_9_PAYOUT_NUM : Nat := 7
def PLACE_5_9_PAYOUT_DEN : Nat := 5
def PLACE_6_8_PAYOUT_NUM : Nat := 7
def PLACE_6_8_PAYOUT_DEN : Nat := 6
def TRUE_ODDS_4_10_NUM : Nat := 2
def TRUE_ODDS_4_10_DEN : Nat := 1
def TRUE_ODDS_5_9_NUM : Nat := 3
def TRUE_ODDS_5_9_DEN : Nat := 2
def TRUE_ODDS_6_8_NUM : Nat := 6
def TRUE_ODDS_6_8_DEN : Nat := 5
def HARD_4_10_PAYOUT_NUM : Nat := 7
def HARD_4_10_PAYOUT_DEN : Nat := 1
def HARD_6_8_PAYOUT_NUM : Nat := 9
def HARD_6_8_PAYOUT_DEN : Nat := 1
def BONUS_SMALL_PAYOUT_NUM : Nat := 30
def BONUS_SMALL_PAYOUT_DEN : Nat := 1
def BONUS_TALL_PAYOUT_NUM : Nat := 30
def BONUS_TALL_PAYOUT_DEN : Nat := 1
def BONUS_ALL_PAYOUT_NUM : Nat := 150
def BONUS_ALL_PAYOUT_DEN : Nat := 1
def FIRE_4_POINTS_PAYOUT_NUM : Nat := 24
def FIRE_4_POINTS_PAYOUT_DEN : Nat := 1
def FIRE_5_POINTS_PAYOUT_NUM : Nat := 249
def FIRE_5_POINTS_PAYOUT_DEN : Nat := 1
def FIRE_6_POINTS_PAYOUT_NUM : Nat := 999
def FIRE_6_POINTS_PAYOUT_DEN : Nat := 1
def FIELDERS_1_PAYOUT_NUM : Nat := 4
def FIELDERS_1_PAYOUT_DEN : Nat := 1
def FIELDERS_2_PAYOUT_NUM : Nat := 2
def FIELDERS_2_PAYOUT_DEN : Nat := 1
def FIELDERS_3_PAYOUT_NUM : Nat := 4
def FIELDERS_3_PAYOUT_DEN : Nat := 1
def DIFF_DOUBLES_3_PAYOUT_NUM : Nat := 4
def DIFF_DOUBLES_3_PAYOUT_DEN : Nat := 1
def DIFF_DOUBLES_4_PAYOUT_NUM : Nat := 8
def DIFF_DOUBLES_4_PAYOUT_DEN : Nat := 1
def DIFF_DOUBLES_5_PAYOUT_NUM : Nat := 15
def DIFF_DOUBLES_5_PAYOUT_DEN : Nat := 1
def DIFF_DOUBLES_6_PAYOUT_NUM : Nat := 100
def DIFF_DOUBLES_6_PAYOUT_DEN : Nat := 1
def RIDE_3_WINS_PAYOUT_NUM : Nat := 2
def RIDE_3_WINS_PAYOUT_DEN : Nat := 1
def RIDE_4_WINS_PAYOUT_NUM : Nat := 3
def RIDE_4_WINS_PAYOUT_DEN : Nat := 1
def RIDE_5_WINS_PAYOUT_NUM : Nat := 5
def RIDE_5_WINS_PAYOUT_DEN : Nat := 1
def RIDE_6_WINS_PAYOUT_NUM : Nat := 8
def RIDE_6_WINS_PAYOUT_DEN : Nat := 1
def RIDE_7_WINS_PAYOUT_NUM : Nat := 10
def RIDE_7_WINS_PAYOUT_DEN : Nat := 1
def RIDE_8_WINS_PAYOUT_NUM : Nat := 15
def RIDE_8_WINS_PAYOUT_DEN : Nat := 1
def RIDE_9_WINS_PAYOUT_NUM : Nat := 25
def RIDE_9_WINS_PAYOUT_DEN : Nat := 1
def RIDE_10_WINS_PAYOUT_NUM : Nat := 40
def RIDE_10_WINS_PAYOUT_DEN : Nat := 1
def RIDE_11_WINS_PAYOUT_NUM : Nat := 150
def RIDE_11_WINS_PAYOUT_DEN : Nat := 1
def MUGSY_COMEOUT_7_PAYOUT_NUM : Nat := 2
def MUGSY_COMEOUT_7_PAYOUT_DEN : Nat := 1
def MUGSY_POINT_7_PAYOUT_NUM : Nat := 3
def MUGSY_POINT_7_PAYOUT_DEN : Nat := 1
def HOT_HAND_9_PAYOUT_NUM : Nat := 20
def HOT_HAND_9_PAYOUT_DEN : Nat := 1
def HOT_HAND_10_PAYOUT_NUM : Nat := 80
def HOT_HAND_10_PAYOUT_DEN : Nat := 1
def REPLAY_4_10_3X_PAYOUT_NUM : Nat := 120
def REPLAY_4_10_3X_PAYOUT_DEN : Nat := 1
def REPLAY_4_10_4X_PAYOUT_NUM : Nat := 1000
def REPLAY_4_10_4X_PAYOUT_DEN : Nat := 1
def REPLAY_5_9_3X_PAYOUT_NUM : Nat := 95
def REPLAY_5_9_3X_PAYOUT_DEN : Nat := 1
def REPLAY_5_9_4X_PAYOUT_NUM : Nat := 500
def REPLAY_5_9_4X_PAYOUT_DEN : Nat := 1
def REPLAY_6_8_3X_PAYOUT_NUM : Nat := 70
def REPLAY_6_8_3X_PAYOUT_DEN : Nat := 1
def REPLAY_6_8_4X_PAYOUT_NUM : Nat := 100
def REPLAY_6_8_4X_PAYOUT_DEN : Nat := 1
def HOP_2_PAYOUT_NUM : Nat := 35
def HOP_2_PAYOUT_DEN : Nat := 1
def HOP_3_PAYOUT_NUM : Nat := 17
def HOP_3_PAYOUT_DEN : Nat := 1
def HOP_4_PAYOUT_NUM : Nat := 11
def HOP_4_PAYOUT_DEN : Nat := 1
def HOP_5_PAYOUT_NUM : Nat := 8
def HOP_5_PAYOUT_DEN : Nat := 1
def HOP_6_PAYOUT_NUM : Nat := 31
def HOP_6_PAYOUT_DEN : Nat := 5
def HOP_7_PAYOUT_NUM : Nat := 5
def HOP_7_PAYOUT_DEN : Nat := 1
def HOP_8_PAYOUT_NUM : Nat := 31
def HOP_8_PAYOUT_DEN : Nat := 5
def HOP_9_PAYOUT_NUM : Nat := 8
def HOP_9_PAYOUT_DEN : Nat := 1
def HOP_10_PAYOUT_NUM : Nat := 11
def HOP_10_PAYOUT_DEN : Nat := 1
def HOP_11_PAYOUT_NUM : Nat := 17
def HOP_11_PAYOUT_DEN : Nat := 1
def HOP_12_PAYOUT_NUM : Nat := 35
def HOP_12_PAYOUT_DEN : Nat := 1
def YES_2_PAYOUT_NUM : Nat := 6
def YES_2_PAYOUT_DEN : Nat := 1
def YES_3_PAYOUT_NUM : Nat := 3
def YES_3_PAYOUT_DEN : Nat := 1
def YES_4_PAYOUT_NUM : Nat := 2
def YES_4_PAYOUT_DEN : Nat := 1
def YES_5_PAYOUT_NUM : Nat := 3
def YES_5_PAYOUT_DEN : Nat := 2
def YES_6_PAYOUT_NUM : Nat := 6
def YES_6_PAYOUT_DEN : Nat := 5
def YES_8_PAYOUT_NUM : Nat := 6
def YES_8_PAYOUT_DEN : Nat := 5
def YES_9_PAYOUT_NUM : Nat := 3
def YES_9_PAYOUT_DEN : Nat := 2
def YES_10_PAYOUT_NUM : Nat := 2
def YES_10_PAYOUT_DEN : Nat := 1
def YES_11_PAYOUT_NUM : Nat := 3
def YES_11_PAYOUT_DEN : Nat := 1
def YES_12_PAYOUT_NUM : Nat := 6
def YES_12_PAYOUT_DEN : Nat := 1
def NO_2_PAYOUT_NUM : Nat := 1
def NO_2_PAYOUT_DEN : Nat := 6
def NO_3_PAYOUT_NUM : Nat := 1
def NO_3_PAYOUT_DEN : Nat := 3
def NO_4_PAYOUT_NUM : Nat := 1
def NO_4_PAYOUT_DEN : Nat := 2
def NO_5_PAYOUT_NUM : Nat := 2
def NO_5_PAYOUT_DEN : Nat := 3
def NO_6_PAYOUT_NUM : Nat := 5
def NO_6_PAYOUT_DEN : Nat := 6
def NO_8_PAYOUT_NUM : Nat := 5
def NO_8_PAYOUT_DEN : Nat := 6
def NO_9_PAYOUT_NUM : Nat := 2
def NO_9_PAYOUT_DEN : Nat := 3
def NO_10_PAYOUT_NUM : Nat := 1
def NO_10_PAYOUT_DEN : Nat := 2
def NO_11_PAYOUT_NUM : Nat := 1
def NO_11_PAYOUT_DEN : Nat := 3
def NO_12_PAYOUT_NUM : Nat := 1
def NO_12_PAYOUT_DEN : Nat := 6

-- ==================== UTILS (src/program/src/craps/utils.rs) ====================

/-- Convert a board square index (0-35) to dice sum (2-12); 0 for out-of-range. -/
def square_to_dice_sum (square : Nat) : Nat :=
  if square ≥ BOARD_SIZE then 0 else (square / 6 + 1) + (square % 6 + 1)

/-- Get the individual dice values from a square. -/
def square_to_dice (square : Nat) : Nat × Nat :=
  (square / 6 + 1, square % 6 + 1)

/-- A square is a hardway (doubles) iff its index is a multiple of 7 in range. -/
def is_hardway (square : Nat) : Bool :=
  square < BOARD_SIZE && square % 7 = 0

/-- Dice sum is "craps" (2, 3 or 12). -/
def is_craps (sum : Nat) : Bool :=
  sum = 2 || sum = 3 || sum = 12

/-- Dice sum is a "natural" (7 or 11). -/
def is_natural (sum : Nat) : Bool :=
  sum = 7 || sum = 11

/-- Dice sum is a point number (4, 5, 6, 8, 9, 10). -/
def is_point_number (sum : Nat) : Bool :=
  sum = 4 || sum = 5 || sum = 6 || sum = 8 || sum = 9 || sum = 10

/-- Dice sum wins a field bet (2, 3, 4, 9, 10, 11, 12). -/
def is_field_winner (sum : Nat) : Bool :=
  sum = 2 || sum = 3 || sum = 4 || sum = 9 || sum = 10 || sum = 11 || sum = 12

/-- Hardway bet loses: a 7 was rolled, or the target sum came the easy way. -/
def hardway_loses (square : Nat) (hardway_num : Nat) : Bool :=
  let sum := square_to_dice_sum square
  if sum = 7 then true
  else if sum = hardway_num && !(is_hardway square) then true
  else false

/-- Convert point number (4,5,6,8,9,10) to array index (0-5). -/
def point_to_index (point : Nat) : Option Nat :=
  if point = 4 then some 0
  else if point = 5 then some 1
  else if point = 6 then some 2
  else if point = 8 then some 3
  else if point = 9 then some 4
  else if point = 10 then some 5
  else none

/-- Convert array index (0-5) to point number (4,5,6,8,9,10). -/
def index_to_point (index : Nat) : Option Nat :=
  if index = 0 then some 4
  else if index = 1 then some 5
  else if index = 2 then some 6
  else if index = 3 then some 8
  else if index = 4 then some 9
  else if index = 5 then some 10
  else none

/-- Convert dice sum (2-12) to array index (0-10) for Yes/No/Next bets. -/
def sum_to_index (sum : Nat) : Option Nat :=
  if 2 ≤ sum ∧ sum ≤ 12 then some (sum - 2) else none

/-- Sum is valid for Yes/No bets (2-12 except 7). -/
def is_valid_yes_no_sum (sum : Nat) : Bool :=
  2 ≤ sum && sum ≤ 12 && sum ≠ 7

/-- Winnings for a bet (excluding the stake): bet * num / den computed in a
wide (u128) intermediate, the final `as u64` cast modelled by the modulus. -/
def calculate_payout (bet_amount payout_num payout_den : Nat) : Nat :=
  (bet_amount * payout_num / payout_den) % U64MOD

-- ==================== DATA MODEL (src/api/src/state) ====================

/-- CrapsGame singleton account (src/api/src/state/craps_game.rs). -/
structure CrapsGame where
  epoch_id : Nat
  point : Nat
  is_come_out : Nat
  epoch_start_round : Nat
  house_bankroll : Nat
  total_payouts : Nat
  total_collected : Nat
  reserved_payouts : Nat
deriving DecidableEq, Repr

/-- Whether the game is in the come-out phase. -/
def CrapsGame.is_coming_out (g : CrapsGame) : Bool := g.is_come_out = 1

/-- Whether a point is established. -/
def CrapsGame.has_point (g : CrapsGame) : Bool := g.point ≠ 0

/-- Get the point if established. -/
def CrapsGame.get_point (g : CrapsGame) : Option Nat :=
  if g.point = 0 then none else some g.point

/-- Set the point and leave come-out. -/
def CrapsGame.set_point (g : CrapsGame) (point : Nat) : CrapsGame :=
  { g with point := point, is_come_out := 0 }

/-- Clear the point and return to come-out. -/
def CrapsGame.clear_point (g : CrapsGame) : CrapsGame :=
  { g with point := 0, is_come_out := 1 }

/-- Start a new epoch: `epoch_id += 1` is a plain u64 increment in the source,
modelled with the u64 wrap made explicit. -/
def CrapsGame.start_new_epoch (g : CrapsGame) (round_id : Nat) : CrapsGame :=
  (({ g with epoch_id := (g.epoch_id + 1) % U64MOD,
             epoch_start_round := round_id } : CrapsGame)).clear_point

/-- CrapsPosition per-player account (src/api/src/state/craps_position.rs).
The fixed-size u64 arrays are modelled as `List Nat` of the same length
(come/odds/place/replay lists have 6 entries, yes/no/next 11, hardways 4,
fielders_choice 3); padding and the authority pubkey are omitted. -/
structure CrapsPosition where
  epoch_id : Nat
  pass_line : Nat
  dont_pass : Nat
  pass_odds : Nat
  dont_pass_odds : Nat
  come_bets : List Nat
  come_odds : List Nat
  dont_come_bets : List Nat
  dont_come_odds : List Nat
  place_bets : List Nat
  place_working : Nat
  yes_bets : List Nat
  no_bets : List Nat
  next_bets : List Nat
  hardways : List Nat
  field_bet : Nat
  any_seven : Nat
  any_craps : Nat
  yo_eleven : Nat
  aces : Nat
  twelve : Nat
  bonus_small : Nat
  bonus_tall : Nat
  bonus_all : Nat
  small_hits : Nat
  tall_hits : Nat
  fire_bet : Nat
  fire_points_made : Nat
  diff_doubles_bet : Nat
  diff_doubles_hits : Nat
  ride_the_line_bet : Nat
  ride_wins_count : Nat
  mugsy_bet : Nat
  mugsy_state : Nat
  hot_hand_bet : Nat
  hot_hand_hits : Nat
  replay_bet : Nat
  replay_counts : List Nat
  fielders_choice : List Nat
  pending_winnings : Nat
  total_wagered : Nat
  total_won : Nat
  total_lost : Nat
  last_updated_round : Nat
  unpaid_debt : Nat
deriving DecidableEq, Repr

/-- Population count limited to 64 bits, matching `u64::count_ones` on the
small bitmask fields (all masks used are below 2^16). -/
def popcountAux : Nat → Nat → Nat
  | 0, _ => 0
  | fuel + 1, n => n % 2 + popcountAux fuel (n / 2)

/-- Population count of a machine-word bitmask. -/
def popcount (n : Nat) : Nat := popcountAux 64 n

/-- Whether place bets are working. -/
def CrapsPosition.are_place_bets_working (p : CrapsPosition) : Bool :=
  p.place_working = 1

/-- Turn place bets on/off. -/
def CrapsPosition.set_place_working (p : CrapsPosition) (working : Bool) : CrapsPosition :=
  { p with place_working := if working then 1 else 0 }

/-- Clear single-roll bets. -/
def CrapsPosition.clear_single_roll_bets (p : CrapsPosition) : CrapsPosition :=
  { p with field_bet := 0, any_seven := 0, any_craps := 0, yo_eleven := 0,
           aces := 0, twelve := 0,
           fielders_choice := [0, 0, 0],
           next_bets := [0, 0, 0, 0, 0, 0, 0, 0, 0, 0, 0] }

/-- Clear bonus craps bets and reset hit tracking. -/
def CrapsPosition.clear_bonus_bets (p : CrapsPosition) : CrapsPosition :=
  { p with bonus_small := 0, bonus_tall := 0, bonus_all := 0,
           small_hits := 0, tall_hits := 0 }

/-- Clear come-out only side bets and their tracking (called on seven-out). -/
def CrapsPosition.clear_shooter_bets (p : CrapsPosition) : CrapsPosition :=
  { p with fire_bet := 0, fire_points_made := 0,
           diff_doubles_bet := 0, diff_doubles_hits := 0,
           ride_the_line_bet := 0, ride_wins_count := 0,
           mugsy_bet := 0, mugsy_state := 0,
           hot_hand_bet := 0, hot_hand_hits := 0,
           replay_bet := 0, replay_counts := [0, 0, 0, 0, 0, 0] }

/-- Clear all bets (for new epoch). -/
def CrapsPosition.clear_all_bets (p : CrapsPosition) : CrapsPosition :=
  (({ p with pass_line := 0, dont_pass := 0, pass_odds := 0, dont_pass_odds := 0,
             come_bets := [0, 0, 0, 0, 0, 0],
             come_odds := [0, 0, 0, 0, 0, 0],
             dont_come_bets := [0, 0, 0, 0, 0, 0],
             dont_come_odds := [0, 0, 0, 0, 0, 0],
             place_bets := [0, 0, 0, 0, 0, 0],
             yes_bets := [0, 0, 0, 0, 0, 0, 0, 0, 0, 0, 0],
             no_bets := [0, 0, 0, 0, 0, 0, 0, 0, 0, 0, 0],
             hardways := [0, 0, 0, 0] } : CrapsPosition)
    ).clear_single_roll_bets.clear_bonus_bets.clear_shooter_bets

/-- Reset for new epoch. -/
def CrapsPosition.reset_for_epoch (p : CrapsPosition) (epoch_id : Nat) : CrapsPosition :=
  { p.clear_all_bets with epoch_id := epoch_id,
                          total_wagered := 0, total_won := 0, total_lost := 0 }

/-- Record a dice total for bonus craps tracking; returns
(small_just_completed, tall_just_completed) plus the updated position. -/
def CrapsPosition.record_bonus_hit (p : CrapsPosition) (total : Nat) :
    (Bool × Bool) × CrapsPosition :=
  let smallStep :=
    if 2 ≤ total ∧ total ≤ 6 then
      let bit := total - 2
      let was_complete := p.small_hits = 31
      let hits := p.small_hits ||| (1 <<< bit)
      ((!was_complete && hits = 31), hits)
    else (false, p.small_hits)
  let tallStep :=
    if 8 ≤ total ∧ total ≤ 12 then
      let bit := total - 8
      let was_complete := p.tall_hits = 31
      let hits := p.tall_hits ||| (1 <<< bit)
      ((!was_complete && hits = 31), hits)
    else (false, p.tall_hits)
  ((smallStep.1, tallStep.1),
   { p with small_hits := smallStep.2, tall_hits := tallStep.2 })

/-- Small bet complete: all of 2,3,4,5,6 hit. -/
def CrapsPosition.is_small_complete (p : CrapsPosition) : Bool := p.small_hits = 31

/-- Tall bet complete: all of 8,9,10,11,12 hit. -/
def CrapsPosition.is_tall_complete (p : CrapsPosition) : Bool := p.tall_hits = 31

/-- All bet complete: both Small and Tall complete. -/
def CrapsPosition.is_all_complete (p : CrapsPosition) : Bool :=
  p.is_small_complete && p.is_tall_complete

/-- Player has any active bonus bets. -/
def CrapsPosition.has_bonus_bets (p : CrapsPosition) : Bool :=
  p.bonus_small > 0 || p.bonus_tall > 0 || p.bonus_all > 0

/-- Record a point made for Fire Bet; returns the unique-point count and the
updated position. -/
def CrapsPosition.record_fire_point (p : CrapsPosition) (point : Nat) :
    Nat × CrapsPosition :=
  let mask :=
    match point_to_index point with
    | some idx => p.fire_points_made ||| (1 <<< idx)
    | none => p.fire_points_made
  (popcount mask, { p with fire_points_made := mask })

/-- Number of unique points made for Fire Bet. -/
def CrapsPosition.fire_points_count (p : CrapsPosition) : Nat :=
  popcount p.fire_points_made

/-- Record a double for Different Doubles; returns the unique-doubles count and
the updated position. -/
def CrapsPosition.record_double (p : CrapsPosition) (die_value : Nat) :
    Nat × CrapsPosition :=
  let mask :=
    if 1 ≤ die_value ∧ die_value ≤ 6 then p.diff_doubles_hits ||| (1 <<< (die_value - 1))
    else p.diff_doubles_hits
  (popcount mask, { p with diff_doubles_hits := mask })

/-- Number of unique doubles hit. -/
def CrapsPosition.diff_doubles_count (p : CrapsPosition) : Nat :=
  popcount p.diff_doubles_hits

/-- Record a pass line win for Ride the Line. -/
def CrapsPosition.record_ride_win (p : CrapsPosition) : CrapsPosition :=
  if p.ride_wins_count < 255 then { p with ride_wins_count := p.ride_wins_count + 1 }
  else p

/-- Record a dice total for Hot Hand; returns whether all 10 totals are now hit
plus the updated position. -/
def CrapsPosition.record_hot_hand_hit (p : CrapsPosition) (total : Nat) :
    Bool × CrapsPosition :=
  let m1 :=
    if 2 ≤ total ∧ total ≤ 6 then p.hot_hand_hits ||| (1 <<< (total - 2))
    else p.hot_hand_hits
  let m2 :=
    if 8 ≤ total ∧ total ≤ 12 then m1 ||| (1 <<< (total - 8 + 5))
    else m1
  ((m2 = 1023), { p with hot_hand_hits := m2 })

/-- Number of unique totals hit for Hot Hand. -/
def CrapsPosition.hot_hand_count (p : CrapsPosition) : Nat :=
  popcount p.hot_hand_hits

/-- Record a point made for Replay; returns the count for that point after
incrementing plus the updated position. -/
def CrapsPosition.record_replay_point (p : CrapsPosition) (point : Nat) :
    Nat × CrapsPosition :=
  match point_to_index point with
  | some idx =>
      let c := p.replay_counts.getD idx 0
      let counts := if c < 255 then p.replay_counts.set idx (c + 1) else p.replay_counts
      (counts.getD idx 0, { p with replay_counts := counts })
  | none => (0, p)

/-- Max replay count for any point. -/
def CrapsPosition.max_replay_count (p : CrapsPosition) : Nat :=
  p.replay_counts.foldl max 0

/-- Transition Mugsy state to point phase (only from come-out state). -/
def CrapsPosition.set_mugsy_point_phase (p : CrapsPosition) : CrapsPosition :=
  if p.mugsy_state = 0 then { p with mugsy_state := 1 } else p

/-- Mugsy bet still in come-out phase. -/
def CrapsPosition.is_mugsy_comeout (p : CrapsPosition) : Bool := p.mugsy_state = 0

/-- An all-zero position in a given epoch (state of a freshly created
CrapsPosition account, which steel zero-initializes). -/
def emptyPosition (epoch : Nat) : CrapsPosition :=
  { epoch_id := epoch, pass_line := 0, dont_pass := 0, pass_odds := 0,
    dont_pass_odds := 0,
    come_bets := [0, 0, 0, 0, 0, 0], come_odds := [0, 0, 0, 0, 0, 0],
    dont_come_bets := [0, 0, 0, 0, 0, 0], dont_come_odds := [0, 0, 0, 0, 0, 0],
    place_bets := [0, 0, 0, 0, 0, 0], place_working := 0,
    yes_bets := [0, 0, 0, 0, 0, 0, 0, 0, 0, 0, 0],
    no_bets := [0, 0, 0, 0, 0, 0, 0, 0, 0, 0, 0],
    next_bets := [0, 0, 0, 0, 0, 0, 0, 0, 0, 0, 0],
    hardways := [0, 0, 0, 0],
    field_bet := 0, any_seven := 0, any_craps := 0, yo_eleven := 0, aces := 0,
    twelve := 0, bonus_small := 0, bonus_tall := 0, bonus_all := 0,
    small_hits := 0, tall_hits := 0, fire_bet := 0, fire_points_made := 0,
    diff_doubles_bet := 0, diff_doubles_hits := 0, ride_the_line_bet := 0,
    ride_wins_count := 0, mugsy_bet := 0, mugsy_state := 0, hot_hand_bet := 0,
    hot_hand_hits := 0, replay_bet := 0, replay_counts := [0, 0, 0, 0, 0, 0],
    fielders_choice := [0, 0, 0], pending_winnings := 0, total_wagered := 0,
    total_won := 0, total_lost := 0, last_updated_round := 0, unpaid_debt := 0 }

-- ==================== BET ADMISSION (src/program/src/craps/place_bet.rs) ====================

/-- Helper `calc` inside calculate_max_payout: amount + amount * num / den with
checked u64 arithmetic (overflow aborts the call). -/
def calcMax (num den amount : Nat) : Option Nat :=
  match checkedMul amount num with
  | none => none
  | some prod =>
    match checkedDiv prod den with
    | none => none
    | some payout => checkedAdd amount payout

/-- Maximum potential payout reserved for a bet type and amount
(place_bet.rs::calculate_max_payout). The Rust match on `bet_type : u8` with
disjoint literal patterns is written as an if-chain; `none` corresponds to the
ArithmeticOverflow error, the `_ => Ok(amount)` fallbacks are kept verbatim. -/
def calculate_max_payout (bet_type point amount : Nat) : Option Nat :=
  if bet_type = 0 then calcMax PASS_LINE_PAYOUT_NUM PASS_LINE_PAYOUT_DEN amount
  else if bet_type = 1 then calcMax PASS_LINE_PAYOUT_NUM PASS_LINE_PAYOUT_DEN amount
  else if bet_type = 2 then
    if point = 4 ∨ point = 10 then calcMax TRUE_ODDS_4_10_NUM TRUE_ODDS_4_10_DEN amount
    else if point = 5 ∨ point = 9 then calcMax TRUE_ODDS_5_9_NUM TRUE_ODDS_5_9_DEN amount
    else if point = 6 ∨ point = 8 then calcMax TRUE_ODDS_6_8_NUM TRUE_ODDS_6_8_DEN amount
    else some amount
  else if bet_type = 3 then
    if point = 4 ∨ point = 10 then calcMax TRUE_ODDS_4_10_NUM TRUE_ODDS_4_10_DEN amount
    else if point = 5 ∨ point = 9 then calcMax TRUE_ODDS_5_9_NUM TRUE_ODDS_5_9_DEN amount
    else if point = 6 ∨ point = 8 then calcMax TRUE_ODDS_6_8_NUM TRUE_ODDS_6_8_DEN amount
    else some amount
  else if bet_type = 4 then calcMax PASS_LINE_PAYOUT_NUM PASS_LINE_PAYOUT_DEN amount
  else if bet_type = 5 then calcMax PASS_LINE_PAYOUT_NUM PASS_LINE_PAYOUT_DEN amount
  else if bet_type = 6 then
    if point = 4 ∨ point = 10 then calcMax TRUE_ODDS_4_10_NUM TRUE_ODDS_4_10_DEN amount
    else if point = 5 ∨ point = 9 then calcMax TRUE_ODDS_5_9_NUM TRUE_ODDS_5_9_DEN amount
    else if point = 6 ∨ point = 8 then calcMax TRUE_ODDS_6_8_NUM TRUE_ODDS_6_8_DEN amount
    else some amount
  else if bet_type = 7 then
    if point = 4 ∨ point = 10 then calcMax TRUE_ODDS_4_10_NUM TRUE_ODDS_4_10_DEN amount
    else if point = 5 ∨ point = 9 then calcMax TRUE_ODDS_5_9_NUM TRUE_ODDS_5_9_DEN amount
    else if point = 6 ∨ point = 8 then calcMax TRUE_ODDS_6_8_NUM TRUE_ODDS_6_8_DEN amount
    else some amount
  else if bet_type = 8 then
    if point = 4 ∨ point = 10 then calcMax PLACE_4_10_PAYOUT_NUM PLACE_4_10_PAYOUT_DEN amount
    else if point = 5 ∨ point = 9 then calcMax PLACE_5_9_PAYOUT_NUM PLACE_5_9_PAYOUT_DEN amount
    else if point = 6 ∨ point = 8 then calcMax PLACE_6_8_PAYOUT_NUM PLACE_6_8_PAYOUT_DEN amount
    else some amount
  else if bet_type = 9 then
    if point = 4 ∨ point = 10 then calcMax HARD_4_10_PAYOUT_NUM HARD_4_10_PAYOUT_DEN amount
    else if point = 6 ∨ point = 8 then calcMax HARD_6_8_PAYOUT_NUM HARD_6_8_PAYOUT_DEN amount
    else some amount
  else if bet_type = 10 then calcMax FIELD_PAYOUT_2_12_NUM FIELD_PAYOUT_2_12_DEN amount
  else if bet_type = 11 then calcMax ANY_SEVEN_PAYOUT_NUM ANY_SEVEN_PAYOUT_DEN amount
  else if bet_type = 12 then calcMax ANY_CRAPS_PAYOUT_NUM ANY_CRAPS_PAYOUT_DEN amount
  else if bet_type = 13 then calcMax YO_ELEVEN_PAYOUT_NUM YO_ELEVEN_PAYOUT_DEN amount
  else if bet_type = 14 then calcMax ACES_PAYOUT_NUM ACES_PAYOUT_DEN amount
  else if bet_type = 15 then calcMax TWELVE_PAYOUT_NUM TWELVE_PAYOUT_DEN amount
  else if bet_type = 26 then
    if point = 2 then calcMax YES_2_PAYOUT_NUM YES_2_PAYOUT_DEN amount
    else if point = 3 then calcMax YES_3_PAYOUT_NUM YES_3_PAYOUT_DEN amount
    else if point = 4 then calcMax YES_4_PAYOUT_NUM YES_4_PAYOUT_DEN amount
    else if point = 5 then calcMax YES_5_PAYOUT_NUM YES_5_PAYOUT_DEN amount
    else if point = 6 then calcMax YES_6_PAYOUT_NUM YES_6_PAYOUT_DEN amount
    else if point = 8 then calcMax YES_8_PAYOUT_NUM YES_8_PAYOUT_DEN amount
    else if point = 9 then calcMax YES_9_PAYOUT_NUM YES_9_PAYOUT_DEN amount
    else if point = 10 then calcMax YES_10_PAYOUT_NUM YES_10_PAYOUT_DEN amount
    else if point = 11 then calcMax YES_11_PAYOUT_NUM YES_11_PAYOUT_DEN amount
    else if point = 12 then calcMax YES_12_PAYOUT_NUM YES_12_PAYOUT_DEN amount
    else some amount
  else if bet_type = 27 then
    if point = 2 then calcMax NO_2_PAYOUT_NUM NO_2_PAYOUT_DEN amount
    else if point = 3 then calcMax NO_3_PAYOUT_NUM NO_3_PAYOUT_DEN amount
    else if point = 4 then calcMax NO_4_PAYOUT_NUM NO_4_PAYOUT_DEN amount
    else if point = 5 then calcMax NO_5_PAYOUT_NUM NO_5_PAYOUT_DEN amount
    else if point = 6 then calcMax NO_6_PAYOUT_NUM NO_6_PAYOUT_DEN amount
    else if point = 8 then calcMax NO_8_PAYOUT_NUM NO_8_PAYOUT_DEN amount
    else if point = 9 then calcMax NO_9_PAYOUT_NUM NO_9_PAYOUT_DEN amount
    else if point = 10 then calcMax NO_10_PAYOUT_NUM NO_10_PAYOUT_DEN amount
    else if point = 11 then calcMax NO_11_PAYOUT_NUM NO_11_PAYOUT_DEN amount
    else if point = 12 then calcMax NO_12_PAYOUT_NUM NO_12_PAYOUT_DEN amount
    else some amount
  else if bet_type = 28 then
    if point = 2 then calcMax HOP_2_PAYOUT_NUM HOP_2_PAYOUT_DEN amount
    else if point = 3 then calcMax HOP_3_PAYOUT_NUM HOP_3_PAYOUT_DEN amount
    else if point = 4 then calcMax HOP_4_PAYOUT_NUM HOP_4_PAYOUT_DEN amount
    else if point = 5 then calcMax HOP_5_PAYOUT_NUM HOP_5_PAYOUT_DEN amount
    else if point = 6 then calcMax HOP_6_PAYOUT_NUM HOP_6_PAYOUT_DEN amount
    else if point = 7 then calcMax HOP_7_PAYOUT_NUM HOP_7_PAYOUT_DEN amount
    else if point = 8 then calcMax HOP_8_PAYOUT_NUM HOP_8_PAYOUT_DEN amount
    else if point = 9 then calcMax HOP_9_PAYOUT_NUM HOP_9_PAYOUT_DEN amount
    else if point = 10 then calcMax HOP_10_PAYOUT_NUM HOP_10_PAYOUT_DEN amount
    else if point = 11 then calcMax HOP_11_PAYOUT_NUM HOP_11_PAYOUT_DEN amount
    else if point = 12 then calcMax HOP_12_PAYOUT_NUM HOP_12_PAYOUT_DEN amount
    else some amount
  else some amount

/-- The per-category body of the bet-type match in process_place_craps_bet:
validates the category against the phase / point argument and adds the stake
to the matching slot with checked addition (place_bet.rs lines 316-557). -/
def applyBet (bet_type point amount : Nat) (g : CrapsGame) (p : CrapsPosition) :
    Except Err CrapsPosition :=
  if bet_type = 0 then
    if !g.is_coming_out then Except.error Err.invalidBetType
    else do
      let v ← toE (checkedAdd p.pass_line amount) Err.arithmeticOverflow
      Except.ok { p with pass_line := v }
  else if bet_type = 1 then
    if !g.is_coming_out then Except.error Err.invalidBetType
    else do
      let v ← toE (checkedAdd p.dont_pass amount) Err.arithmeticOverflow
      Except.ok { p with dont_pass := v }
  else if bet_type = 2 then
    if !g.has_point then Except.error Err.invalidBetType
    else if p.pass_line = 0 then Except.error Err.invalidBetType
    else do
      let v ← toE (checkedAdd p.pass_odds amount) Err.arithmeticOverflow
      Except.ok { p with pass_odds := v }
  else if bet_type = 3 then
    if !g.has_point then Except.error Err.invalidBetType
    else if p.dont_pass = 0 then Except.error Err.invalidBetType
    else do
      let v ← toE (checkedAdd p.dont_pass_odds amount) Err.arithmeticOverflow
      Except.ok { p with dont_pass_odds := v }
  else if bet_type = 4 then
    match point_to_index point with
    | some idx => do
        let v ← toE (checkedAdd (p.come_bets.getD idx 0) amount) Err.arithmeticOverflow
        Except.ok { p with come_bets := p.come_bets.set idx v }
    | none => Except.error Err.invalidBetType
  else if bet_type = 5 then
    match point_to_index point with
    | some idx => do
        let v ← toE (checkedAdd (p.dont_come_bets.getD idx 0) amount) Err.arithmeticOverflow
        Except.ok { p with dont_come_bets := p.dont_come_bets.set idx v }
    | none => Except.error Err.invalidBetType
  else if bet_type = 6 then
    match point_to_index point with
    | some idx =>
        if p.come_bets.getD idx 0 = 0 then Except.error Err.invalidBetType
        else do
          let v ← toE (checkedAdd (p.come_odds.getD idx 0) amount) Err.arithmeticOverflow
          Except.ok { p with come_odds := p.come_odds.set idx v }
    | none => Except.error Err.invalidBetType
  else if bet_type = 7 then
    match point_to_index point with
    | some idx =>
        if p.dont_come_bets.getD idx 0 = 0 then Except.error Err.invalidBetType
        else do
          let v ← toE (checkedAdd (p.dont_come_odds.getD idx 0) amount) Err.arithmeticOverflow
          Except.ok { p with dont_come_odds := p.dont_come_odds.set idx v }
    | none => Except.error Err.invalidBetType
  else if bet_type = 8 then
    match point_to_index point with
    | some idx => do
        let v ← toE (checkedAdd (p.place_bets.getD idx 0) amount) Err.arithmeticOverflow
        Except.ok (({ p with place_bets := p.place_bets.set idx v } :
          CrapsPosition).set_place_working true)
    | none => Except.error Err.invalidBetType
  else if bet_type = 9 then
    let hardway_idx : Option Nat :=
      if point = 4 then some 0
      else if point = 6 then some 1
      else if point = 8 then some 2
      else if point = 10 then some 3
      else none
    match hardway_idx with
    | some idx => do
        let v ← toE (checkedAdd (p.hardways.getD idx 0) amount) Err.arithmeticOverflow
        Except.ok { p with hardways := p.hardways.set idx v }
    | none => Except.error Err.invalidBetType
  else if bet_type = 10 then do
    let v ← toE (checkedAdd p.field_bet amount) Err.arithmeticOverflow
    Except.ok { p with field_bet := v }
  else if bet_type = 11 then do
    let v ← toE (checkedAdd p.any_seven amount) Err.arithmeticOverflow
    Except.ok { p with any_seven := v }
  else if bet_type = 12 then do
    let v ← toE (checkedAdd p.any_craps amount) Err.arithmeticOverflow
    Except.ok { p with any_craps := v }
  else if bet_type = 13 then do
    let v ← toE (checkedAdd p.yo_eleven amount) Err.arithmeticOverflow
    Except.ok { p with yo_eleven := v }
  else if bet_type = 14 then do
    let v ← toE (checkedAdd p.aces amount) Err.arithmeticOverflow
    Except.ok { p with aces := v }
  else if bet_type = 15 then do
    let v ← toE (checkedAdd p.twelve amount) Err.arithmeticOverflow
    Except.ok { p with twelve := v }
  else if bet_type = 26 then
    if is_valid_yes_no_sum point then
      match sum_to_index point with
      | some idx => do
          let v ← toE (checkedAdd (p.yes_bets.getD idx 0) amount) Err.arithmeticOverflow
          Except.ok { p with yes_bets := p.yes_bets.set idx v }
      | none => Except.error Err.invalidBetType
    else Except.error Err.invalidBetType
  else if bet_type = 27 then
    if is_valid_yes_no_sum point then
      match sum_to_index point with
      | some idx => do
          let v ← toE (checkedAdd (p.no_bets.getD idx 0) amount) Err.arithmeticOverflow
          Except.ok { p with no_bets := p.no_bets.set idx v }
      | none => Except.error Err.invalidBetType
    else Except.error Err.invalidBetType
  else if bet_type = 28 then
    match sum_to_index point with
    | some idx => do
        let v ← toE (checkedAdd (p.next_bets.getD idx 0) amount) Err.arithmeticOverflow
        Except.ok { p with next_bets := p.next_bets.set idx v }
    | none => Except.error Err.invalidBetType
  else Except.error Err.invalidBetType

/-- Core state transition of process_place_craps_bet (place_bet.rs lines
279-612): stale-epoch reset, stake validation, worst-case payout reservation
against the available bankroll, slot update, and the ledger updates.
Account plumbing and the token transfer (which moves `amount` into the vault,
mirrored by the house_bankroll increment) are outside the state model. -/
def process_place_craps_bet (g : CrapsGame) (p : CrapsPosition)
    (bet_type point amount : Nat) : Except Err (CrapsGame × CrapsPosition) := do
  let p := if p.epoch_id ≠ g.epoch_id then p.reset_for_epoch g.epoch_id else p
  if amount = 0 then Except.error Err.invalidBetAmount
  else if amount > MAX_BET_AMOUNT then Except.error Err.invalidBetAmount
  else do
    let max_payout ←
      match calculate_max_payout bet_type point amount with
      | some m => Except.ok m
      | none => Except.error Err.arithmeticOverflow
    let available_bankroll ←
      toE (checkedSub g.house_bankroll g.reserved_payouts) Err.insufficientBankroll
    if max_payout > available_bankroll then Except.error Err.insufficientBankroll
    else do
      let p ← applyBet bet_type point amount g p
      let tw ← toE (checkedAdd p.total_wagered amount) Err.arithmeticOverflow
      let p := { p with total_wagered := tw }
      let rp ← toE (checkedAdd g.reserved_payouts max_payout) Err.arithmeticOverflow
      let hb ← toE (checkedAdd g.house_bankroll amount) Err.arithmeticOverflow
      Except.ok ({ g with reserved_payouts := rp, house_bankroll := hb }, p)

-- ==================== SETTLEMENT (src/program/src/craps/settle.rs) ====================

/-- Release the reserved payout for a settled bet (settle.rs lines 14-33):
recompute the reserved max payout with saturating arithmetic and subtract it,
clamping reserved_payouts to 0 if the subtraction would underflow. -/
def release_reserved_payout (g : CrapsGame) (bet_amount payout_num payout_den : Nat) :
    CrapsGame :=
  let payout := satMul bet_amount payout_num / max payout_den 1
  let max_payout := satAdd bet_amount payout
  match checkedSub g.reserved_payouts max_payout with
  | some new_reserved => { g with reserved_payouts := new_reserved }
  | none => { g with reserved_payouts := 0 }

/-- Place bet payout ratio. -/
def get_place_payout (point : Nat) : Nat × Nat :=
  if point = 4 ∨ point = 10 then (PLACE_4_10_PAYOUT_NUM, PLACE_4_10_PAYOUT_DEN)
  else if point = 5 ∨ point = 9 then (PLACE_5_9_PAYOUT_NUM, PLACE_5_9_PAYOUT_DEN)
  else if point = 6 ∨ point = 8 then (PLACE_6_8_PAYOUT_NUM, PLACE_6_8_PAYOUT_DEN)
  else (0, 1)

/-- True odds payout ratio for pass/come bets. -/
def get_true_odds_payout (point : Nat) : Nat × Nat :=
  if point = 4 ∨ point = 10 then (TRUE_ODDS_4_10_NUM, TRUE_ODDS_4_10_DEN)
  else if point = 5 ∨ point = 9 then (TRUE_ODDS_5_9_NUM, TRUE_ODDS_5_9_DEN)
  else if point = 6 ∨ point = 8 then (TRUE_ODDS_6_8_NUM, TRUE_ODDS_6_8_DEN)
  else (0, 1)

/-- Inverse true odds payout ratio for don't pass/don't come odds. -/
def get_dont_true_odds_payout (point : Nat) : Nat × Nat :=
  if point = 4 ∨ point = 10 then (TRUE_ODDS_4_10_DEN, TRUE_ODDS_4_10_NUM)
  else if point = 5 ∨ point = 9 then (TRUE_ODDS_5_9_DEN, TRUE_ODDS_5_9_NUM)
  else if point = 6 ∨ point = 8 then (TRUE_ODDS_6_8_DEN, TRUE_ODDS_6_8_NUM)
  else (0, 1)

/-- Different Doubles payout by unique-doubles count. -/
def get_diff_doubles_payout (count : Nat) : Nat × Nat :=
  if count = 3 then (DIFF_DOUBLES_3_PAYOUT_NUM, DIFF_DOUBLES_3_PAYOUT_DEN)
  else if count = 4 then (DIFF_DOUBLES_4_PAYOUT_NUM, DIFF_DOUBLES_4_PAYOUT_DEN)
  else if count = 5 then (DIFF_DOUBLES_5_PAYOUT_NUM, DIFF_DOUBLES_5_PAYOUT_DEN)
  else if count = 6 then (DIFF_DOUBLES_6_PAYOUT_NUM, DIFF_DOUBLES_6_PAYOUT_DEN)
  else (0, 1)

/-- Fire Bet payout by points made. -/
def get_fire_bet_payout (points : Nat) : Nat × Nat :=
  if points = 4 then (FIRE_4_POINTS_PAYOUT_NUM, FIRE_4_POINTS_PAYOUT_DEN)
  else if points = 5 then (FIRE_5_POINTS_PAYOUT_NUM, FIRE_5_POINTS_PAYOUT_DEN)
  else if points = 6 then (FIRE_6_POINTS_PAYOUT_NUM, FIRE_6_POINTS_PAYOUT_DEN)
  else (0, 1)

/-- Ride the Line payout by pass-line wins. -/
def get_ride_the_line_payout (wins : Nat) : Nat × Nat :=
  if wins = 3 then (RIDE_3_WINS_PAYOUT_NUM, RIDE_3_WINS_PAYOUT_DEN)
  else if wins = 4 then (RIDE_4_WINS_PAYOUT_NUM, RIDE_4_WINS_PAYOUT_DEN)
  else if wins = 5 then (RIDE_5_WINS_PAYOUT_NUM, RIDE_5_WINS_PAYOUT_DEN)
  else if wins = 6 then (RIDE_6_WINS_PAYOUT_NUM, RIDE_6_WINS_PAYOUT_DEN)
  else if wins = 7 then (RIDE_7_WINS_PAYOUT_NUM, RIDE_7_WINS_PAYOUT_DEN)
  else if wins = 8 then (RIDE_8_WINS_PAYOUT_NUM, RIDE_8_WINS_PAYOUT_DEN)
  else if wins = 9 then (RIDE_9_WINS_PAYOUT_NUM, RIDE_9_WINS_PAYOUT_DEN)
  else if wins = 10 then (RIDE_10_WINS_PAYOUT_NUM, RIDE_10_WINS_PAYOUT_DEN)
  else if wins ≥ 11 then (RIDE_11_WINS_PAYOUT_NUM, RIDE_11_WINS_PAYOUT_DEN)
  else (0, 1)

/-- Replay Bet payout: best ratio over the per-point repeat counts. -/
def get_replay_bet_payout (counts : List Nat) : Nat × Nat :=
  counts.enum.foldl
    (fun best ic =>
      let idx := ic.1
      let count := ic.2
      if count < 3 then best
      else
        let payout : Nat × Nat :=
          if idx = 0 ∨ idx = 5 then
            if count ≥ 4 then (REPLAY_4_10_4X_PAYOUT_NUM, REPLAY_4_10_4X_PAYOUT_DEN)
            else (REPLAY_4_10_3X_PAYOUT_NUM, REPLAY_4_10_3X_PAYOUT_DEN)
          else if idx = 1 ∨ idx = 4 then
            if count ≥ 4 then (REPLAY_5_9_4X_PAYOUT_NUM, REPLAY_5_9_4X_PAYOUT_DEN)
            else (REPLAY_5_9_3X_PAYOUT_NUM, REPLAY_5_9_3X_PAYOUT_DEN)
          else if idx = 2 ∨ idx = 3 then
            if count ≥ 4 then (REPLAY_6_8_4X_PAYOUT_NUM, REPLAY_6_8_4X_PAYOUT_DEN)
            else (REPLAY_6_8_3X_PAYOUT_NUM, REPLAY_6_8_3X_PAYOUT_DEN)
          else (0, 1)
        if payout.1 * best.2 > best.1 * payout.2 then payout else best)
    (0, 1)

/-- Next bet payout ratio (single-roll true odds). -/
def get_next_payout (sum : Nat) : Nat × Nat :=
  if sum = 2 then (HOP_2_PAYOUT_NUM, HOP_2_PAYOUT_DEN)
  else if sum = 3 then (HOP_3_PAYOUT_NUM, HOP_3_PAYOUT_DEN)
  else if sum = 4 then (HOP_4_PAYOUT_NUM, HOP_4_PAYOUT_DEN)
  else if sum = 5 then (HOP_5_PAYOUT_NUM, HOP_5_PAYOUT_DEN)
  else if sum = 6 then (HOP_6_PAYOUT_NUM, HOP_6_PAYOUT_DEN)
  else if sum = 7 then (HOP_7_PAYOUT_NUM, HOP_7_PAYOUT_DEN)
  else if sum = 8 then (HOP_8_PAYOUT_NUM, HOP_8_PAYOUT_DEN)
  else if sum = 9 then (HOP_9_PAYOUT_NUM, HOP_9_PAYOUT_DEN)
  else if sum = 10 then (HOP_10_PAYOUT_NUM, HOP_10_PAYOUT_DEN)
  else if sum = 11 then (HOP_11_PAYOUT_NUM, HOP_11_PAYOUT_DEN)
  else if sum = 12 then (HOP_12_PAYOUT_NUM, HOP_12_PAYOUT_DEN)
  else (0, 1)

/-- Yes bet payout ratio (true odds, sum before 7). -/
def get_yes_payout (sum : Nat) : Nat × Nat :=
  if sum = 2 then (YES_2_PAYOUT_NUM, YES_2_PAYOUT_DEN)
  else if sum = 3 then (YES_3_PAYOUT_NUM, YES_3_PAYOUT_DEN)
  else if sum = 4 then (YES_4_PAYOUT_NUM, YES_4_PAYOUT_DEN)
  else if sum = 5 then (YES_5_PAYOUT_NUM, YES_5_PAYOUT_DEN)
  else if sum = 6 then (YES_6_PAYOUT_NUM, YES_6_PAYOUT_DEN)
  else if sum = 8 then (YES_8_PAYOUT_NUM, YES_8_PAYOUT_DEN)
  else if sum = 9 then (YES_9_PAYOUT_NUM, YES_9_PAYOUT_DEN)
  else if sum = 10 then (YES_10_PAYOUT_NUM, YES_10_PAYOUT_DEN)
  else if sum = 11 then (YES_11_PAYOUT_NUM, YES_11_PAYOUT_DEN)
  else if sum = 12 then (YES_12_PAYOUT_NUM, YES_12_PAYOUT_DEN)
  else (0, 1)

/-- No bet payout ratio (inverse true odds, 7 before sum). -/
def get_no_payout (sum : Nat) : Nat × Nat :=
  if sum = 2 then (NO_2_PAYOUT_NUM, NO_2_PAYOUT_DEN)
  else if sum = 3 then (NO_3_PAYOUT_NUM, NO_3_PAYOUT_DEN)
  else if sum = 4 then (NO_4_PAYOUT_NUM, NO_4_PAYOUT_DEN)
  else if sum = 5 then (NO_5_PAYOUT_NUM, NO_5_PAYOUT_DEN)
  else if sum = 6 then (NO_6_PAYOUT_NUM, NO_6_PAYOUT_DEN)
  else if sum = 8 then (NO_8_PAYOUT_NUM, NO_8_PAYOUT_DEN)
  else if sum = 9 then (NO_9_PAYOUT_NUM, NO_9_PAYOUT_DEN)
  else if sum = 10 then (NO_10_PAYOUT_NUM, NO_10_PAYOUT_DEN)
  else if sum = 11 then (NO_11_PAYOUT_NUM, NO_11_PAYOUT_DEN)
  else if sum = 12 then (NO_12_PAYOUT_NUM, NO_12_PAYOUT_DEN)
  else (0, 1)

/-- Intermediate settlement state: the two accounts plus the running
total_winnings / total_lost accumulators of process_settle_craps. -/
structure SettleSt where
  game : CrapsGame
  pos : CrapsPosition
  winnings : Nat
  lost : Nat
deriving DecidableEq, Repr

/-- Credit a winning bet: win_amount = bet + payout, then add to winnings,
both with checked addition (the repeated pattern of process_settle_craps). -/
def creditWin (st : SettleSt) (bet payout : Nat) : Except Err SettleSt := do
  let win_amount ← toE (checkedAdd bet payout) Err.arithmeticOverflow
  let w ← toE (checkedAdd st.winnings win_amount) Err.arithmeticOverflow
  Except.ok { st with winnings := w }

/-- Add a losing stake to the running lost total with checked addition. -/
def creditLoss (st : SettleSt) (bet : Nat) : Except Err SettleSt := do
  let l ← toE (checkedAdd st.lost bet) Err.arithmeticOverflow
  Except.ok { st with lost := l }

/-- Field bet settlement (wins on 2,3,4,9,10,11,12; 2 and 12 pay double;
reservation released at the worst-case 2:1 ratio). -/
def settleField (dice_sum : Nat) (st : SettleSt) : Except Err SettleSt :=
  if st.pos.field_bet > 0 then do
    let st ←
      if is_field_winner dice_sum then
        let nd := if dice_sum = 2 ∨ dice_sum = 12 then
            (FIELD_PAYOUT_2_12_NUM, FIELD_PAYOUT_2_12_DEN)
          else (FIELD_PAYOUT_NORMAL_NUM, FIELD_PAYOUT_NORMAL_DEN)
        creditWin st st.pos.field_bet (calculate_payout st.pos.field_bet nd.1 nd.2)
      else creditLoss st st.pos.field_bet
    let g := release_reserved_payout st.game st.pos.field_bet
      FIELD_PAYOUT_2_12_NUM FIELD_PAYOUT_2_12_DEN
    Except.ok { st with game := g, pos := { st.pos with field_bet := 0 } }
  else Except.ok st

/-- Any Seven settlement (wins on 7). -/
def settleAnySeven (dice_sum : Nat) (st : SettleSt) : Except Err SettleSt :=
  if st.pos.any_seven > 0 then do
    let st ←
      if dice_sum = 7 then
        creditWin st st.pos.any_seven
          (calculate_payout st.pos.any_seven ANY_SEVEN_PAYOUT_NUM ANY_SEVEN_PAYOUT_DEN)
      else creditLoss st st.pos.any_seven
    let g := release_reserved_payout st.game st.pos.any_seven
      ANY_SEVEN_PAYOUT_NUM ANY_SEVEN_PAYOUT_DEN
    Except.ok { st with game := g, pos := { st.pos with any_seven := 0 } }
  else Except.ok st

/-- Any Craps settlement (wins on 2, 3 or 12). -/
def settleAnyCraps (dice_sum : Nat) (st : SettleSt) : Except Err SettleSt :=
  if st.pos.any_craps > 0 then do
    let st ←
      if is_craps dice_sum then
        creditWin st st.pos.any_craps
          (calculate_payout st.pos.any_craps ANY_CRAPS_PAYOUT_NUM ANY_CRAPS_PAYOUT_DEN)
      else creditLoss st st.pos.any_craps
    let g := release_reserved_payout st.game st.pos.any_craps
      ANY_CRAPS_PAYOUT_NUM ANY_CRAPS_PAYOUT_DEN
    Except.ok { st with game := g, pos := { st.pos with any_craps := 0 } }
  else Except.ok st

/-- Yo Eleven settlement (wins on 11). -/
def settleYoEleven (dice_sum : Nat) (st : SettleSt) : Except Err SettleSt :=
  if st.pos.yo_eleven > 0 then do
    let st ←
      if dice_sum = 11 then
        creditWin st st.pos.yo_eleven
          (calculate_payout st.pos.yo_eleven YO_ELEVEN_PAYOUT_NUM YO_ELEVEN_PAYOUT_DEN)
      else creditLoss st st.pos.yo_eleven
    let g := release_reserved_payout st.game st.pos.yo_eleven
      YO_ELEVEN_PAYOUT_NUM YO_ELEVEN_PAYOUT_DEN
    Except.ok { st with game := g, pos := { st.pos with yo_eleven := 0 } }
  else Except.ok st

/-- Aces settlement (wins on 2). -/
def settleAces (dice_sum : Nat) (st : SettleSt) : Except Err SettleSt :=
  if st.pos.aces > 0 then do
    let st ←
      if dice_sum = 2 then
        creditWin st st.pos.aces
          (calculate_payout st.pos.aces ACES_PAYOUT_NUM ACES_PAYOUT_DEN)
      else creditLoss st st.pos.aces
    let g := release_reserved_payout st.game st.pos.aces ACES_PAYOUT_NUM ACES_PAYOUT_DEN
    Except.ok { st with game := g, pos := { st.pos with aces := 0 } }
  else Except.ok st

/-- Twelve settlement (wins on 12). -/
def settleTwelve (dice_sum : Nat) (st : SettleSt) : Except Err SettleSt :=
  if st.pos.twelve > 0 then do
    let st ←
      if dice_sum = 12 then
        creditWin st st.pos.twelve
          (calculate_payout st.pos.twelve TWELVE_PAYOUT_NUM TWELVE_PAYOUT_DEN)
      else creditLoss st st.pos.twelve
    let g := release_reserved_payout st.game st.pos.twelve TWELVE_PAYOUT_NUM TWELVE_PAYOUT_DEN
    Except.ok { st with game := g, pos := { st.pos with twelve := 0 } }
  else Except.ok st

/-- One iteration of the Next-bets loop (index 0 is sum 2, ..., 10 is sum 12). -/
def settleNextOne (dice_sum i : Nat) (st : SettleSt) : Except Err SettleSt :=
  let next_sum := i + 2
  if st.pos.next_bets.getD i 0 > 0 then do
    let bet := st.pos.next_bets.getD i 0
    let nd := get_next_payout next_sum
    let st ←
      if dice_sum = next_sum then creditWin st bet (calculate_payout bet nd.1 nd.2)
      else creditLoss st bet
    let g := release_reserved_payout st.game bet nd.1 nd.2
    Except.ok { st with game := g, pos := { st.pos with next_bets := st.pos.next_bets.set i 0 } }
  else Except.ok st

/-- The Next-bets loop over indices 0..10. -/
def settleNextLoop (dice_sum : Nat) : List Nat → SettleSt → Except Err SettleSt
  | [], st => Except.ok st
  | i :: rest, st => do
      let st ← settleNextOne dice_sum i st
      settleNextLoop dice_sum rest st

/-- Bonus Small losing leg on a seven-out (settle.rs lines 412-419). -/
def bonusLoseSmall (st : SettleSt) : Except Err SettleSt :=
  if st.pos.bonus_small > 0 then do
    let st ← creditLoss st st.pos.bonus_small
    let g := release_reserved_payout st.game st.pos.bonus_small
      BONUS_SMALL_PAYOUT_NUM BONUS_SMALL_PAYOUT_DEN
    Except.ok { st with game := g }
  else Except.ok st

/-- Bonus Tall losing leg on a seven-out (settle.rs lines 420-427). -/
def bonusLoseTall (st : SettleSt) : Except Err SettleSt :=
  if st.pos.bonus_tall > 0 then do
    let st ← creditLoss st st.pos.bonus_tall
    let g := release_reserved_payout st.game st.pos.bonus_tall
      BONUS_TALL_PAYOUT_NUM BONUS_TALL_PAYOUT_DEN
    Except.ok { st with game := g }
  else Except.ok st

/-- Bonus All losing leg on a seven-out (settle.rs lines 428-435). -/
def bonusLoseAll (st : SettleSt) : Except Err SettleSt :=
  if st.pos.bonus_all > 0 then do
    let st ← creditLoss st st.pos.bonus_all
    let g := release_reserved_payout st.game st.pos.bonus_all
      BONUS_ALL_PAYOUT_NUM BONUS_ALL_PAYOUT_DEN
    Except.ok { st with game := g }
  else Except.ok st

/-- Bonus Small winning leg; `small_just_complete` comes from record_bonus_hit
(settle.rs lines 441-454). -/
def bonusWinSmall (small_just_complete : Bool) (st : SettleSt) : Except Err SettleSt :=
  if small_just_complete && st.pos.bonus_small > 0 then do
    let st ← creditWin st st.pos.bonus_small
      (calculate_payout st.pos.bonus_small BONUS_SMALL_PAYOUT_NUM BONUS_SMALL_PAYOUT_DEN)
    let g := release_reserved_payout st.game st.pos.bonus_small
      BONUS_SMALL_PAYOUT_NUM BONUS_SMALL_PAYOUT_DEN
    Except.ok { st with game := g, pos := { st.pos with bonus_small := 0 } }
  else Except.ok st

/-- Bonus Tall winning leg (settle.rs lines 456-469). -/
def bonusWinTall (tall_just_complete : Bool) (st : SettleSt) : Except Err SettleSt :=
  if tall_just_complete && st.pos.bonus_tall > 0 then do
    let st ← creditWin st st.pos.bonus_tall
      (calculate_payout st.pos.bonus_tall BONUS_TALL_PAYOUT_NUM BONUS_TALL_PAYOUT_DEN)
    let g := release_reserved_payout st.game st.pos.bonus_tall
      BONUS_TALL_PAYOUT_NUM BONUS_TALL_PAYOUT_DEN
    Except.ok { st with game := g, pos := { st.pos with bonus_tall := 0 } }
  else Except.ok st

/-- Bonus All winning leg (settle.rs lines 471-485). -/
def bonusWinAll (st : SettleSt) : Except Err SettleSt :=
  if st.pos.is_all_complete && st.pos.bonus_all > 0 then do
    let st ← creditWin st st.pos.bonus_all
      (calculate_payout st.pos.bonus_all BONUS_ALL_PAYOUT_NUM BONUS_ALL_PAYOUT_DEN)
    let g := release_reserved_payout st.game st.pos.bonus_all
      BONUS_ALL_PAYOUT_NUM BONUS_ALL_PAYOUT_DEN
    Except.ok { st with game := g, pos := { st.pos with bonus_all := 0 } }
  else Except.ok st

/-- Bonus craps side bets (Small / Tall / All): lose on 7, record hits and win
the instant a bitmask completes otherwise (settle.rs lines 409-486). -/
def settleBonus (dice_sum : Nat) (st : SettleSt) : Except Err SettleSt :=
  if st.pos.has_bonus_bets then
    if dice_sum = 7 then do
      let st ← bonusLoseSmall st
      let st ← bonusLoseTall st
      let st ← bonusLoseAll st
      Except.ok { st with pos := st.pos.clear_bonus_bets }
    else do
      let res := st.pos.record_bonus_hit dice_sum
      let st := { st with pos := res.2 }
      let st ← bonusWinSmall res.1.1 st
      let st ← bonusWinTall res.1.2 st
      bonusWinAll st
  else Except.ok st

/-- One iteration of the Fielder's Choice loop
([0] wins on 2,3,4 at 4:1; [1] on 4,9,10 at 2:1; [2] on 10,11,12 at 4:1). -/
def settleFieldersOne (dice_sum i : Nat) (st : SettleSt) : Except Err SettleSt :=
  if st.pos.fielders_choice.getD i 0 > 0 then do
    let bet := st.pos.fielders_choice.getD i 0
    let wins :=
      if i = 0 then dice_sum = 2 ∨ dice_sum = 3 ∨ dice_sum = 4
      else if i = 1 then dice_sum = 4 ∨ dice_sum = 9 ∨ dice_sum = 10
      else if i = 2 then dice_sum = 10 ∨ dice_sum = 11 ∨ dice_sum = 12
      else False
    let nd :=
      if i = 0 then (FIELDERS_1_PAYOUT_NUM, FIELDERS_1_PAYOUT_DEN)
      else if i = 1 then (FIELDERS_2_PAYOUT_NUM, FIELDERS_2_PAYOUT_DEN)
      else if i = 2 then (FIELDERS_3_PAYOUT_NUM, FIELDERS_3_PAYOUT_DEN)
      else (0, 1)
    let st ←
      if wins then creditWin st bet (calculate_payout bet nd.1 nd.2)
      else creditLoss st bet
    let g := release_reserved_payout st.game bet nd.1 nd.2
    Except.ok { st with game := g, pos := { st.pos with fielders_choice := st.pos.fielders_choice.set i 0 } }
  else Except.ok st

/-- The Fielder's Choice loop over indices 0..2. -/
def settleFieldersLoop (dice_sum : Nat) : List Nat → SettleSt → Except Err SettleSt
  | [], st => Except.ok st
  | i :: rest, st => do
      let st ← settleFieldersOne dice_sum i st
      settleFieldersLoop dice_sum rest st

/-- Different Doubles: settles on 7 (3+ unique doubles pays), or instantly at
all six doubles; otherwise records the double. -/
def settleDiffDoubles (dice_sum die1 die2 : Nat) (st : SettleSt) : Except Err SettleSt :=
  if st.pos.diff_doubles_bet > 0 then
    if dice_sum = 7 then do
      let count := st.pos.diff_doubles_count
      let st ←
        if count ≥ 3 then
          let nd := get_diff_doubles_payout count
          creditWin st st.pos.diff_doubles_bet
            (calculate_payout st.pos.diff_doubles_bet nd.1 nd.2)
        else creditLoss st st.pos.diff_doubles_bet
      let g := release_reserved_payout st.game st.pos.diff_doubles_bet
        DIFF_DOUBLES_6_PAYOUT_NUM DIFF_DOUBLES_6_PAYOUT_DEN
      Except.ok { st with game := g, pos := { st.pos with diff_doubles_bet := 0, diff_doubles_hits := 0 } }
    else if die1 = die2 then do
      let res := st.pos.record_double die1
      let count := res.1
      let st := { st with pos := res.2 }
      if count = 6 then do
        let st ← creditWin st st.pos.diff_doubles_bet
          (calculate_payout st.pos.diff_doubles_bet
            DIFF_DOUBLES_6_PAYOUT_NUM DIFF_DOUBLES_6_PAYOUT_DEN)
        let g := release_reserved_payout st.game st.pos.diff_doubles_bet
          DIFF_DOUBLES_6_PAYOUT_NUM DIFF_DOUBLES_6_PAYOUT_DEN
        Except.ok { st with game := g, pos := { st.pos with diff_doubles_bet := 0, diff_doubles_hits := 0 } }
      else Except.ok st
    else Except.ok st
  else Except.ok st

/-- Hot Hand: settles on 7 (9 or 10 of 10 totals pays), or instantly at
completion; otherwise records the total. -/
def settleHotHand (dice_sum : Nat) (st : SettleSt) : Except Err SettleSt :=
  if st.pos.hot_hand_bet > 0 then
    if dice_sum = 7 then do
      let count := st.pos.hot_hand_count
      let st ←
        if count ≥ 9 then
          let nd :=
            if count ≥ 10 then (HOT_HAND_10_PAYOUT_NUM, HOT_HAND_10_PAYOUT_DEN)
            else (HOT_HAND_9_PAYOUT_NUM, HOT_HAND_9_PAYOUT_DEN)
          creditWin st st.pos.hot_hand_bet (calculate_payout st.pos.hot_hand_bet nd.1 nd.2)
        else creditLoss st st.pos.hot_hand_bet
      let g := release_reserved_payout st.game st.pos.hot_hand_bet
        HOT_HAND_10_PAYOUT_NUM HOT_HAND_10_PAYOUT_DEN
      Except.ok { st with game := g, pos := { st.pos with hot_hand_bet := 0, hot_hand_hits := 0 } }
    else do
      let res := st.pos.record_hot_hand_hit dice_sum
      let complete := res.1
      let st := { st with pos := res.2 }
      if complete then do
        let st ← creditWin st st.pos.hot_hand_bet
          (calculate_payout st.pos.hot_hand_bet HOT_HAND_10_PAYOUT_NUM HOT_HAND_10_PAYOUT_DEN)
        let g := release_reserved_payout st.game st.pos.hot_hand_bet
          HOT_HAND_10_PAYOUT_NUM HOT_HAND_10_PAYOUT_DEN
        Except.ok { st with game := g, pos := { st.pos with hot_hand_bet := 0, hot_hand_hits := 0 } }
      else Except.ok st
  else Except.ok st

/-- Mugsy's Corner: pays on any 7, ratio by come-out vs point phase tracking;
the reservation is released at the point-phase 3:1 ratio. -/
def settleMugsy (dice_sum : Nat) (st : SettleSt) : Except Err SettleSt :=
  if st.pos.mugsy_bet > 0 then
    if dice_sum = 7 then do
      let nd :=
        if st.pos.is_mugsy_comeout then (MUGSY_COMEOUT_7_PAYOUT_NUM, MUGSY_COMEOUT_7_PAYOUT_DEN)
        else (MUGSY_POINT_7_PAYOUT_NUM, MUGSY_POINT_7_PAYOUT_DEN)
      let st ← creditWin st st.pos.mugsy_bet (calculate_payout st.pos.mugsy_bet nd.1 nd.2)
      let g := release_reserved_payout st.game st.pos.mugsy_bet
        MUGSY_POINT_7_PAYOUT_NUM MUGSY_POINT_7_PAYOUT_DEN
      Except.ok { st with game := g, pos := { st.pos with mugsy_bet := 0, mugsy_state := 0 } }
    else Except.ok st
  else Except.ok st

/-- One iteration of the hardways loop (index 0 is hard 4, 1 is 6, 2 is 8,
3 is 10): win on the hard combination, lose on 7 or the easy way, else carry. -/
def settleHardwayOne (dice_sum : Nat) (is_hard : Bool) (square i : Nat)
    (st : SettleSt) : Except Err SettleSt :=
  if st.pos.hardways.getD i 0 > 0 then
    let hardway_num :=
      if i = 0 then 4 else if i = 1 then 6 else if i = 2 then 8 else 10
    let nd :=
      if hardway_num = 4 ∨ hardway_num = 10 then (HARD_4_10_PAYOUT_NUM, HARD_4_10_PAYOUT_DEN)
      else (HARD_6_8_PAYOUT_NUM, HARD_6_8_PAYOUT_DEN)
    let bet := st.pos.hardways.getD i 0
    if dice_sum = hardway_num ∧ is_hard then do
      let st ← creditWin st bet (calculate_payout bet nd.1 nd.2)
      let g := release_reserved_payout st.game bet nd.1 nd.2
      Except.ok { st with game := g, pos := { st.pos with hardways := st.pos.hardways.set i 0 } }
    else if hardway_loses square hardway_num then do
      let st ← creditLoss st bet
      let g := release_reserved_payout st.game bet nd.1 nd.2
      Except.ok { st with game := g, pos := { st.pos with hardways := st.pos.hardways.set i 0 } }
    else Except.ok st
  else Except.ok st

/-- The hardways loop over indices 0..3. -/
def settleHardwaysLoop (dice_sum : Nat) (is_hard : Bool) (square : Nat) :
    List Nat → SettleSt → Except Err SettleSt
  | [], st => Except.ok st
  | i :: rest, st => do
      let st ← settleHardwayOne dice_sum is_hard square i st
      settleHardwaysLoop dice_sum is_hard square rest st

/-- One iteration of the place-bets loop: win when the number hits, lose on 7,
otherwise carry (only entered when place bets are working). -/
def settlePlaceOne (dice_sum i : Nat) (st : SettleSt) : Except Err SettleSt :=
  if st.pos.place_bets.getD i 0 > 0 then
    match index_to_point i with
    | none => Except.ok st
    | some point_num =>
      let nd := get_place_payout point_num
      let bet := st.pos.place_bets.getD i 0
      if dice_sum = point_num then do
        let st ← creditWin st bet (calculate_payout bet nd.1 nd.2)
        let g := release_reserved_payout st.game bet nd.1 nd.2
        Except.ok { st with game := g, pos := { st.pos with place_bets := st.pos.place_bets.set i 0 } }
      else if dice_sum = 7 then do
        let st ← creditLoss st bet
        let g := release_reserved_payout st.game bet nd.1 nd.2
        Except.ok { st with game := g, pos := { st.pos with place_bets := st.pos.place_bets.set i 0 } }
      else Except.ok st
  else Except.ok st

/-- The place-bets loop over indices 0..5, guarded by the working flag. -/
def settlePlaceLoop (dice_sum : Nat) : List Nat → SettleSt → Except Err SettleSt
  | [], st => Except.ok st
  | i :: rest, st => do
      let st ← settlePlaceOne dice_sum i st
      settlePlaceLoop dice_sum rest st

/-- One iteration of the Yes-bets loop: sum 7 is skipped; win when the chosen
sum hits, lose on 7, otherwise carry. -/
def settleYesOne (dice_sum i : Nat) (st : SettleSt) : Except Err SettleSt :=
  let bet_sum := i + 2
  if bet_sum = 7 then Except.ok st
  else if st.pos.yes_bets.getD i 0 > 0 then
    let nd := get_yes_payout bet_sum
    let bet := st.pos.yes_bets.getD i 0
    if dice_sum = bet_sum then do
      let st ← creditWin st bet (calculate_payout bet nd.1 nd.2)
      let g := release_reserved_payout st.game bet nd.1 nd.2
      Except.ok { st with game := g, pos := { st.pos with yes_bets := st.pos.yes_bets.set i 0 } }
    else if dice_sum = 7 then do
      let st ← creditLoss st bet
      let g := release_reserved_payout st.game bet nd.1 nd.2
      Except.ok { st with game := g, pos := { st.pos with yes_bets := st.pos.yes_bets.set i 0 } }
    else Except.ok st
  else Except.ok st

/-- The Yes-bets loop over indices 0..10. -/
def settleYesLoop (dice_sum : Nat) : List Nat → SettleSt → Except Err SettleSt
  | [], st => Except.ok st
  | i :: rest, st => do
      let st ← settleYesOne dice_sum i st
      settleYesLoop dice_sum rest st

/-- One iteration of the No-bets loop: sum 7 is skipped; win on 7, lose when
the chosen sum hits, otherwise carry. -/
def settleNoOne (dice_sum i : Nat) (st : SettleSt) : Except Err SettleSt :=
  let bet_sum := i + 2
  if bet_sum = 7 then Except.ok st
  else if st.pos.no_bets.getD i 0 > 0 then
    let nd := get_no_payout bet_sum
    let bet := st.pos.no_bets.getD i 0
    if dice_sum = 7 then do
      let st ← creditWin st bet (calculate_payout bet nd.1 nd.2)
      let g := release_reserved_payout st.game bet nd.1 nd.2
      Except.ok { st with game := g, pos := { st.pos with no_bets := st.pos.no_bets.set i 0 } }
    else if dice_sum = bet_sum then do
      let st ← creditLoss st bet
      let g := release_reserved_payout st.game bet nd.1 nd.2
      Except.ok { st with game := g, pos := { st.pos with no_bets := st.pos.no_bets.set i 0 } }
    else Except.ok st
  else Except.ok st

/-- The No-bets loop over indices 0..10. -/
def settleNoLoop (dice_sum : Nat) : List Nat → SettleSt → Except Err SettleSt
  | [], st => Except.ok st
  | i :: rest, st => do
      let st ← settleNoOne dice_sum i st
      settleNoLoop dice_sum rest st

/-- Come-bet half of one come-loop iteration: come wins 1:1 (plus true-odds
come odds) when the travelling point hits, loses on 7 (settle.rs lines
820-877). -/
def comeHalf (dice_sum i : Nat) (st : SettleSt) : Except Err SettleSt :=
  if st.pos.come_bets.getD i 0 > 0 then
    match index_to_point i with
    | none => Except.ok st
    | some point_num =>
      if dice_sum = point_num then do
        let bet := st.pos.come_bets.getD i 0
        let st ← creditWin st bet bet
        let g := release_reserved_payout st.game bet
          PASS_LINE_PAYOUT_NUM PASS_LINE_PAYOUT_DEN
        let st := { st with game := g }
        let st ←
          if st.pos.come_odds.getD i 0 > 0 then do
            let odds := st.pos.come_odds.getD i 0
            let nd := get_true_odds_payout point_num
            let st ← creditWin st odds (calculate_payout odds nd.1 nd.2)
            let g := release_reserved_payout st.game odds nd.1 nd.2
            Except.ok { st with game := g, pos := { st.pos with come_odds := st.pos.come_odds.set i 0 } }
          else Except.ok st
        Except.ok { st with pos := { st.pos with come_bets := st.pos.come_bets.set i 0 } }
      else if dice_sum = 7 then do
        let bet := st.pos.come_bets.getD i 0
        let odds := st.pos.come_odds.getD i 0
        let lost_amount ← toE (checkedAdd bet odds) Err.arithmeticOverflow
        let st ← creditLoss st lost_amount
        let g := release_reserved_payout st.game bet
          PASS_LINE_PAYOUT_NUM PASS_LINE_PAYOUT_DEN
        let g :=
          if odds > 0 then
            let nd := get_true_odds_payout point_num
            release_reserved_payout g odds nd.1 nd.2
          else g
        Except.ok { st with game := g, pos := { st.pos with come_bets := st.pos.come_bets.set i 0, come_odds := st.pos.come_odds.set i 0 } }
      else Except.ok st
  else Except.ok st

/-- Don't-come half of one come-loop iteration: the mirror image, with odds
paid and released at the pass-odds ratio (settle.rs lines 879-936). -/
def dontComeHalf (dice_sum i : Nat) (st : SettleSt) : Except Err SettleSt :=
  if st.pos.dont_come_bets.getD i 0 > 0 then
    match index_to_point i with
    | none => Except.ok st
    | some point_num =>
      if dice_sum = 7 then do
        let bet := st.pos.dont_come_bets.getD i 0
        let st ← creditWin st bet bet
        let g := release_reserved_payout st.game bet
          PASS_LINE_PAYOUT_NUM PASS_LINE_PAYOUT_DEN
        let st := { st with game := g }
        let st ←
          if st.pos.dont_come_odds.getD i 0 > 0 then do
            let odds := st.pos.dont_come_odds.getD i 0
            let nd := get_true_odds_payout point_num
            let st ← creditWin st odds (calculate_payout odds nd.1 nd.2)
            let g := release_reserved_payout st.game odds nd.1 nd.2
            Except.ok { st with game := g, pos := { st.pos with dont_come_odds := st.pos.dont_come_odds.set i 0 } }
          else Except.ok st
        Except.ok { st with pos := { st.pos with dont_come_bets := st.pos.dont_come_bets.set i 0 } }
      else if dice_sum = point_num then do
        let bet := st.pos.dont_come_bets.getD i 0
        let odds := st.pos.dont_come_odds.getD i 0
        let lost_amount ← toE (checkedAdd bet odds) Err.arithmeticOverflow
        let st ← creditLoss st lost_amount
        let g := release_reserved_payout st.game bet
          PASS_LINE_PAYOUT_NUM PASS_LINE_PAYOUT_DEN
        let g :=
          if odds > 0 then
            let nd := get_true_odds_payout point_num
            release_reserved_payout g odds nd.1 nd.2
          else g
        Except.ok { st with game := g, pos := { st.pos with dont_come_bets := st.pos.dont_come_bets.set i 0, dont_come_odds := st.pos.dont_come_odds.set i 0 } }
      else Except.ok st
  else Except.ok st

/-- One iteration of the come/don't-come loop. -/
def settleComeOne (dice_sum i : Nat) (st : SettleSt) : Except Err SettleSt := do
  let st ← comeHalf dice_sum i st
  dontComeHalf dice_sum i st

/-- The come/don't-come loop over indices 0..5. -/
def settleComeLoop (dice_sum : Nat) : List Nat → SettleSt → Except Err SettleSt
  | [], st => Except.ok st
  | i :: rest, st => do
      let st ← settleComeOne dice_sum i st
      settleComeLoop dice_sum rest st

/-- Seven-out pass-line leg: pass line and pass odds lose together, the pass
odds reservation released at the true-odds ratio for the current point
(settle.rs lines 1110-1126). -/
def sevenOutPass (point : Nat) (st : SettleSt) : Except Err SettleSt :=
  if st.pos.pass_line > 0 then do
    let lost_amount ←
      toE (checkedAdd st.pos.pass_line st.pos.pass_odds) Err.arithmeticOverflow
    let st ← creditLoss st lost_amount
    let g := release_reserved_payout st.game st.pos.pass_line
      PASS_LINE_PAYOUT_NUM PASS_LINE_PAYOUT_DEN
    let g :=
      if st.pos.pass_odds > 0 then
        let nd := get_true_odds_payout point
        release_reserved_payout g st.pos.pass_odds nd.1 nd.2
      else g
    Except.ok { st with game := g, pos := { st.pos with pass_line := 0, pass_odds := 0 } }
  else Except.ok st

/-- Seven-out don't-pass leg: don't pass wins 1:1, don't-pass odds pay the
inverse true odds but release at the true-odds ratio (settle.rs lines
1128-1159). -/
def sevenOutDontPass (point : Nat) (st : SettleSt) : Except Err SettleSt :=
  if st.pos.dont_pass > 0 then do
    let st ← creditWin st st.pos.dont_pass st.pos.dont_pass
    let st ←
      if st.pos.dont_pass_odds > 0 then do
        let nd := get_dont_true_odds_payout point
        let st ← creditWin st st.pos.dont_pass_odds
          (calculate_payout st.pos.dont_pass_odds nd.1 nd.2)
        let ndr := get_true_odds_payout point
        let g := release_reserved_payout st.game st.pos.dont_pass_odds ndr.1 ndr.2
        Except.ok { st with game := g, pos := { st.pos with dont_pass_odds := 0 } }
      else Except.ok st
    let g := release_reserved_payout st.game st.pos.dont_pass
      PASS_LINE_PAYOUT_NUM PASS_LINE_PAYOUT_DEN
    Except.ok { st with game := g, pos := { st.pos with dont_pass := 0 } }
  else Except.ok st

/-- Seven-out Fire Bet settlement: 4+ unique points pay, otherwise lose; the
reservation is released at the 6-point ratio (settle.rs lines 1161-1183). -/
def sevenOutFire (st : SettleSt) : Except Err SettleSt :=
  if st.pos.fire_bet > 0 then do
    let fire_count := st.pos.fire_points_count
    let st ←
      if fire_count ≥ 4 then
        let nd := get_fire_bet_payout fire_count
        creditWin st st.pos.fire_bet (calculate_payout st.pos.fire_bet nd.1 nd.2)
      else creditLoss st st.pos.fire_bet
    let g := release_reserved_payout st.game st.pos.fire_bet
      FIRE_6_POINTS_PAYOUT_NUM FIRE_6_POINTS_PAYOUT_DEN
    Except.ok { st with game := g }
  else Except.ok st

/-- Seven-out Ride the Line settlement (settle.rs lines 1185-1207). -/
def sevenOutRide (st : SettleSt) : Except Err SettleSt :=
  if st.pos.ride_the_line_bet > 0 then do
    let wins := st.pos.ride_wins_count
    let st ←
      if wins ≥ 3 then
        let nd := get_ride_the_line_payout wins
        creditWin st st.pos.ride_the_line_bet
          (calculate_payout st.pos.ride_the_line_bet nd.1 nd.2)
      else creditLoss st st.pos.ride_the_line_bet
    let g := release_reserved_payout st.game st.pos.ride_the_line_bet
      RIDE_11_WINS_PAYOUT_NUM RIDE_11_WINS_PAYOUT_DEN
    Except.ok { st with game := g }
  else Except.ok st

/-- Seven-out Replay Bet settlement (settle.rs lines 1209-1232). -/
def sevenOutReplay (st : SettleSt) : Except Err SettleSt :=
  if st.pos.replay_bet > 0 then do
    let max_count := st.pos.max_replay_count
    let st ←
      if max_count ≥ 3 then
        let nd := get_replay_bet_payout st.pos.replay_counts
        creditWin st st.pos.replay_bet (calculate_payout st.pos.replay_bet nd.1 nd.2)
      else creditLoss st st.pos.replay_bet
    let g := release_reserved_payout st.game st.pos.replay_bet
      REPLAY_4_10_4X_PAYOUT_NUM REPLAY_4_10_4X_PAYOUT_DEN
    Except.ok { st with game := g }
  else Except.ok st

/-- Point-hit pass side: pass line wins 1:1, pass odds pay and release at the
true-odds ratio (settle.rs lines 1033-1061). -/
def pointHitPass (point : Nat) (st : SettleSt) : Except Err SettleSt :=
  if st.pos.pass_line > 0 then do
    let st ← creditWin st st.pos.pass_line st.pos.pass_line
    let g := release_reserved_payout st.game st.pos.pass_line
      PASS_LINE_PAYOUT_NUM PASS_LINE_PAYOUT_DEN
    let st := { st with game := g }
    let st ←
      if st.pos.pass_odds > 0 then do
        let nd := get_true_odds_payout point
        let st ← creditWin st st.pos.pass_odds
          (calculate_payout st.pos.pass_odds nd.1 nd.2)
        let g := release_reserved_payout st.game st.pos.pass_odds nd.1 nd.2
        Except.ok { st with game := g, pos := { st.pos with pass_odds := 0 } }
      else Except.ok st
    Except.ok { st with pos := { st.pos with pass_line := 0 } }
  else Except.ok st

/-- Point-hit don't-pass side: don't pass and its odds lose together
(settle.rs lines 1063-1081). -/
def pointHitDontPass (point : Nat) (st : SettleSt) : Except Err SettleSt :=
  if st.pos.dont_pass > 0 then do
    let lost_amount ←
      toE (checkedAdd st.pos.dont_pass st.pos.dont_pass_odds) Err.arithmeticOverflow
    let st ← creditLoss st lost_amount
    let g := release_reserved_payout st.game st.pos.dont_pass
      PASS_LINE_PAYOUT_NUM PASS_LINE_PAYOUT_DEN
    let g :=
      if st.pos.dont_pass_odds > 0 then
        let nd := get_true_odds_payout point
        release_reserved_payout g st.pos.dont_pass_odds nd.1 nd.2
      else g
    Except.ok { st with game := g, pos := { st.pos with dont_pass := 0, dont_pass_odds := 0 } }
  else Except.ok st

/-- Come-out natural (7/11): pass wins, don't pass loses (settle.rs lines
952-976). -/
def comeOutNatural (st : SettleSt) : Except Err SettleSt := do
  let st ←
    if st.pos.pass_line > 0 then do
      let st ← creditWin st st.pos.pass_line st.pos.pass_line
      let g := release_reserved_payout st.game st.pos.pass_line
        PASS_LINE_PAYOUT_NUM PASS_LINE_PAYOUT_DEN
      Except.ok { st with game := g, pos := { st.pos with pass_line := 0 } }
    else Except.ok st
  if st.pos.dont_pass > 0 then do
    let st ← creditLoss st st.pos.dont_pass
    let g := release_reserved_payout st.game st.pos.dont_pass
      PASS_LINE_PAYOUT_NUM PASS_LINE_PAYOUT_DEN
    Except.ok { st with game := g, pos := { st.pos with dont_pass := 0 } }
  else Except.ok st

/-- Come-out craps (2/3/12): pass loses; don't pass wins on 2/3 and pushes on
12 (settle.rs lines 977-1010). -/
def comeOutCraps (dice_sum : Nat) (st : SettleSt) : Except Err SettleSt := do
  let st ←
    if st.pos.pass_line > 0 then do
      let st ← creditLoss st st.pos.pass_line
      let g := release_reserved_payout st.game st.pos.pass_line
        PASS_LINE_PAYOUT_NUM PASS_LINE_PAYOUT_DEN
      Except.ok { st with game := g, pos := { st.pos with pass_line := 0 } }
    else Except.ok st
  if st.pos.dont_pass > 0 then do
    let st ←
      if dice_sum = 12 then do
        let w ← toE (checkedAdd st.winnings st.pos.dont_pass) Err.arithmeticOverflow
        Except.ok { st with winnings := w }
      else creditWin st st.pos.dont_pass st.pos.dont_pass
    let g := release_reserved_payout st.game st.pos.dont_pass
      PASS_LINE_PAYOUT_NUM PASS_LINE_PAYOUT_DEN
    Except.ok { st with game := g, pos := { st.pos with dont_pass := 0 } }
  else Except.ok st

/-- Line bets (pass / don't pass and their odds), branching on come-out vs
point phase; establishes or clears the point, updates the shooter-run
trackers, and on seven-out starts a new epoch and resets the position
(settle.rs lines 939-1242). -/
def settleLine (dice_sum round_id : Nat) (st : SettleSt) : Except Err SettleSt :=
  let is_come_out := st.game.is_coming_out
  let current_point := st.game.get_point
  if is_come_out then
    if is_natural dice_sum then comeOutNatural st
    else if is_craps dice_sum then comeOutCraps dice_sum st
    else if is_point_number dice_sum then
      let g := st.game.set_point dice_sum
      let pos := if st.pos.mugsy_bet > 0 then st.pos.set_mugsy_point_phase else st.pos
      Except.ok { st with game := g, pos := pos }
    else Except.ok st
  else
    let point := current_point.getD 0
    if dice_sum = point then do
      let st ← pointHitPass point st
      let st ← pointHitDontPass point st
      let st := { st with game := st.game.clear_point }
      let st :=
        if st.pos.fire_bet > 0 then { st with pos := (st.pos.record_fire_point point).2 }
        else st
      let st :=
        if st.pos.replay_bet > 0 then { st with pos := (st.pos.record_replay_point point).2 }
        else st
      let st :=
        if st.pos.ride_the_line_bet > 0 then { st with pos := st.pos.record_ride_win }
        else st
      Except.ok st
    else if dice_sum = 7 then do
      let st ← sevenOutPass point st
      let st ← sevenOutDontPass point st
      let st ← sevenOutFire st
      let st ← sevenOutRide st
      let st ← sevenOutReplay st
      let g := st.game.start_new_epoch round_id
      let pos := st.pos.reset_for_epoch g.epoch_id
      Except.ok { st with game := g, pos := pos }
    else Except.ok st

/-- Closing step of process_settle_craps (settle.rs lines 1244-1314): credit
pending winnings and lifetime totals, stamp the round, then apply the single
net bankroll adjustment, falling back to debt tracking when the house cannot
cover the net payout. -/
def finalizeSettle (round_id : Nat) (st : SettleSt) :
    Except Err (CrapsGame × CrapsPosition) := do
  let pending ← toE (checkedAdd st.pos.pending_winnings st.winnings) Err.arithmeticOverflow
  let won ← toE (checkedAdd st.pos.total_won st.winnings) Err.arithmeticOverflow
  let lostTotal ← toE (checkedAdd st.pos.total_lost st.lost) Err.arithmeticOverflow
  let pos := { st.pos with pending_winnings := pending, total_won := won,
                           total_lost := lostTotal, last_updated_round := round_id }
  let payouts ← toE (checkedAdd st.game.total_payouts st.winnings) Err.arithmeticOverflow
  let collected ← toE (checkedAdd st.game.total_collected st.lost) Err.arithmeticOverflow
  let g := { st.game with total_payouts := payouts, total_collected := collected }
  if st.winnings > st.lost then do
    let net_payout ← toE (checkedSub st.winnings st.lost) Err.arithmeticOverflow
    if net_payout > 0 then
      if g.house_bankroll ≥ net_payout then do
        let hb ← toE (checkedSub g.house_bankroll net_payout) Err.insufficientFunds
        Except.ok ({ g with house_bankroll := hb }, pos)
      else do
        let payable_amount := g.house_bankroll
        let debt_amount ← toE (checkedSub net_payout payable_amount) Err.arithmeticOverflow
        let g := { g with house_bankroll := 0 }
        let debt ← toE (checkedAdd pos.unpaid_debt debt_amount) Err.arithmeticOverflow
        let pos := { pos with unpaid_debt := debt }
        let pos ←
          if pos.pending_winnings ≥ debt_amount then do
            let pw ← toE (checkedSub pos.pending_winnings debt_amount) Err.arithmeticOverflow
            Except.ok { pos with pending_winnings := pw }
          else Except.ok pos
        Except.ok (g, pos)
    else Except.ok (g, pos)
  else do
    let net_gain ← toE (checkedSub st.lost st.winnings) Err.arithmeticOverflow
    let hb ← toE (checkedAdd g.house_bankroll net_gain) Err.arithmeticOverflow
    Except.ok ({ g with house_bankroll := hb }, pos)

/-- True when a list has any positive entry (`iter().any(|&x| x > 0)`). -/
def anyPos (l : List Nat) : Bool := l.any (fun x => x > 0)

/-- The has-any-bets early-exit test of process_settle_craps (lines 186-214). -/
def hasAnyBets (p : CrapsPosition) : Bool :=
  p.pass_line > 0 || p.dont_pass > 0 || p.pass_odds > 0 || p.dont_pass_odds > 0
    || p.field_bet > 0 || p.any_seven > 0 || p.any_craps > 0 || p.yo_eleven > 0
    || p.aces > 0 || p.twelve > 0 || p.bonus_small > 0 || p.bonus_tall > 0
    || p.bonus_all > 0 || p.fire_bet > 0 || p.diff_doubles_bet > 0
    || p.ride_the_line_bet > 0 || p.mugsy_bet > 0 || p.hot_hand_bet > 0
    || p.replay_bet > 0 || anyPos p.fielders_choice || anyPos p.hardways
    || anyPos p.place_bets || anyPos p.yes_bets || anyPos p.no_bets
    || anyPos p.next_bets || anyPos p.come_bets || anyPos p.come_odds
    || anyPos p.dont_come_bets || anyPos p.dont_come_odds

/-- Stale-epoch refund path of process_settle_craps (lines 104-172): refund
all active bets into pending_winnings (with the source's unwrap_or fallbacks),
reset the position into the current epoch and return early. The shooter-run
bet fields are not cleared by this path in the source. -/
def settleEpochMismatch (g : CrapsGame) (p : CrapsPosition) (round_id : Nat) :
    CrapsGame × CrapsPosition :=
  let total_refund :=
    (checkedAdd p.pass_line p.dont_pass).getD 0
  let total_refund := (checkedAdd total_refund p.pass_odds).getD 0
  let total_refund := (checkedAdd total_refund p.dont_pass_odds).getD 0
  let total_refund := (checkedAdd total_refund p.field_bet).getD 0
  let total_refund := (checkedAdd total_refund p.any_seven).getD 0
  let total_refund := (checkedAdd total_refund p.any_craps).getD 0
  let total_refund := (checkedAdd total_refund p.yo_eleven).getD 0
  let total_refund := (checkedAdd total_refund p.aces).getD 0
  let total_refund := (checkedAdd total_refund p.twelve).getD 0
  let total_refund := (checkedAdd total_refund p.bonus_small).getD 0
  let total_refund := (checkedAdd total_refund p.bonus_tall).getD 0
  let total_refund := (checkedAdd total_refund p.bonus_all).getD 0
  let array_total := p.come_bets.sum + p.come_odds.sum + p.dont_come_bets.sum
    + p.dont_come_odds.sum + p.place_bets.sum + p.yes_bets.sum + p.no_bets.sum
    + p.next_bets.sum + p.hardways.sum
  let total_refund := (checkedAdd total_refund array_total).getD total_refund
  let p :=
    if total_refund > 0 then
      { p with pending_winnings := (checkedAdd p.pending_winnings total_refund).getD p.pending_winnings }
    else p
  let p := { p with
             epoch_id := g.epoch_id, last_updated_round := round_id,
             pass_line := 0, dont_pass := 0, pass_odds := 0, dont_pass_odds := 0,
             field_bet := 0, any_seven := 0, any_craps := 0, yo_eleven := 0,
             aces := 0, twelve := 0,
             come_bets := [0, 0, 0, 0, 0, 0], come_odds := [0, 0, 0, 0, 0, 0],
             dont_come_bets := [0, 0, 0, 0, 0, 0],
             dont_come_odds := [0, 0, 0, 0, 0, 0],
             place_bets := [0, 0, 0, 0, 0, 0],
             yes_bets := [0, 0, 0, 0, 0, 0, 0, 0, 0, 0, 0],
             no_bets := [0, 0, 0, 0, 0, 0, 0, 0, 0, 0, 0],
             next_bets := [0, 0, 0, 0, 0, 0, 0, 0, 0, 0, 0],
             hardways := [0, 0, 0, 0] }
  (g, p.clear_bonus_bets)

/-- Place-bets stage guard: the loop runs only while place bets are working
(settle.rs line 702). -/
def placeStage (dice_sum : Nat) (st : SettleSt) : Except Err SettleSt :=
  if st.pos.are_place_bets_working then
    settlePlaceLoop dice_sum [0, 1, 2, 3, 4, 5] st
  else Except.ok st

/-- Core state transition of process_settle_craps (settle.rs lines 101-1321):
stale-epoch refund, already-settled guard, no-bets early exit, then the
per-family settlement pipeline followed by the net bankroll adjustment.
`round_id` is the id of the finalized Round account; `winning_square` the
validated 0-35 board index. -/
def process_settle_craps (g : CrapsGame) (p : CrapsPosition)
    (round_id winning_square : Nat) : Except Err (CrapsGame × CrapsPosition) :=
  if p.epoch_id ≠ g.epoch_id then
    Except.ok (settleEpochMismatch g p round_id)
  else
    let is_first_settlement := p.last_updated_round = 0 ∧ round_id = 0
    if ¬is_first_settlement ∧ p.last_updated_round ≥ round_id then
      Except.error (Err.custom 1)
    else if ¬hasAnyBets p then
      Except.ok (g, { p with last_updated_round := round_id })
    else do
      let dice_sum := square_to_dice_sum winning_square
      let is_hard := is_hardway winning_square
      let dice := square_to_dice winning_square
      let st : SettleSt := { game := g, pos := p, winnings := 0, lost := 0 }
      let st ← settleField dice_sum st
      let st ← settleAnySeven dice_sum st
      let st ← settleAnyCraps dice_sum st
      let st ← settleYoEleven dice_sum st
      let st ← settleAces dice_sum st
      let st ← settleTwelve dice_sum st
      let st ← settleNextLoop dice_sum [0, 1, 2, 3, 4, 5, 6, 7, 8, 9, 10] st
      let st ← settleBonus dice_sum st
      let st ← settleFieldersLoop dice_sum [0, 1, 2] st
      let st ← settleDiffDoubles dice_sum dice.1 dice.2 st
      let st ← settleHotHand dice_sum st
      let st ← settleMugsy dice_sum st
      let st ← settleHardwaysLoop dice_sum is_hard winning_square [0, 1, 2, 3] st
      let st ← placeStage dice_sum st
      let st ← settleYesLoop dice_sum [0, 1, 2, 3, 4, 5, 6, 7, 8, 9, 10] st
      let st ← settleNoLoop dice_sum [0, 1, 2, 3, 4, 5, 6, 7, 8, 9, 10] st
      let st ← settleComeLoop dice_sum [0, 1, 2, 3, 4, 5] st
      let st ← settleLine dice_sum round_id st
      finalizeSettle round_id st

-- ==================== FORCE SETTLE (src/program/src/craps/force_settle.rs) ====================

/-- The has-any-bets test of process_force_settle_craps (lines 83-98); note it
covers fewer families than the settle variant. -/
def hasAnyBetsForce (p : CrapsPosition) : Bool :=
  p.pass_line > 0 || p.dont_pass > 0 || p.pass_odds > 0 || p.dont_pass_odds > 0
    || p.field_bet > 0 || p.any_seven > 0 || p.any_craps > 0 || p.yo_eleven > 0
    || p.aces > 0 || p.twelve > 0 || anyPos p.come_bets || anyPos p.place_bets
    || anyPos p.yes_bets || anyPos p.no_bets || anyPos p.next_bets
    || anyPos p.hardways

/-- Total forfeited stake accumulated by process_force_settle_craps
(lines 105-150), saturating_add over every outstanding stake field. -/
def totalForfeited (p : CrapsPosition) : Nat :=
  let t := satAdd 0 p.pass_line
  let t := satAdd t p.dont_pass
  let t := satAdd t p.pass_odds
  let t := satAdd t p.dont_pass_odds
  let t := satAdd t p.field_bet
  let t := satAdd t p.any_seven
  let t := satAdd t p.any_craps
  let t := satAdd t p.yo_eleven
  let t := satAdd t p.aces
  let t := satAdd t p.twelve
  let t := p.come_bets.foldl satAdd t
  let t := p.come_odds.foldl satAdd t
  let t := p.dont_come_bets.foldl satAdd t
  let t := p.dont_come_odds.foldl satAdd t
  let t := p.place_bets.foldl satAdd t
  let t := p.yes_bets.foldl satAdd t
  let t := p.no_bets.foldl satAdd t
  let t := p.next_bets.foldl satAdd t
  p.hardways.foldl satAdd t

/-- Core state transition of process_force_settle_craps (force_settle.rs
lines 74-195): permissionless settlement of an expired position. `slot` is
the current clock slot and `expires_at` the round expiry threshold. -/
def process_force_settle_craps (g : CrapsGame) (p : CrapsPosition)
    (slot expires_at round_id : Nat) : Except Err (CrapsGame × CrapsPosition) :=
  if slot ≤ expires_at then Except.error (Err.custom 2)
  else if ¬hasAnyBetsForce p then Except.ok (g, p)
  else
    let total_forfeited := totalForfeited p
    let p := { p with
               pass_line := 0, dont_pass := 0, pass_odds := 0, dont_pass_odds := 0,
               field_bet := 0, any_seven := 0, any_craps := 0, yo_eleven := 0,
               aces := 0, twelve := 0,
               come_bets := [0, 0, 0, 0, 0, 0], come_odds := [0, 0, 0, 0, 0, 0],
               dont_come_bets := [0, 0, 0, 0, 0, 0],
               dont_come_odds := [0, 0, 0, 0, 0, 0],
               place_bets := [0, 0, 0, 0, 0, 0],
               yes_bets := [0, 0, 0, 0, 0, 0, 0, 0, 0, 0, 0],
               no_bets := [0, 0, 0, 0, 0, 0, 0, 0, 0, 0, 0],
               next_bets := [0, 0, 0, 0, 0, 0, 0, 0, 0, 0, 0],
               hardways := [0, 0, 0, 0] }
    let p := { p with total_lost := satAdd p.total_lost total_forfeited,
                      last_updated_round := round_id }
    let g := { g with reserved_payouts :=
                 satSub g.reserved_payouts (satMul total_forfeited 2) }
    let g := { g with total_collected := satAdd g.total_collected total_forfeited }
    Except.ok (g, p)

-- ==================== CLAIMS (claim.rs, claim_debt.rs) ====================

/-- Core state transition of process_claim_craps_winnings (claim.rs lines
70-118): returns the updated accounts and the amount transferred out of the
vault to the player. -/
def process_claim_craps_winnings (g : CrapsGame) (p : CrapsPosition) :
    Except Err (CrapsGame × CrapsPosition × Nat) := do
  let amount := p.pending_winnings
  if amount = 0 then Except.error Err.invalidArgument
  else if g.house_bankroll < amount then Except.error Err.insufficientFunds
  else do
    let p := { p with pending_winnings := 0 }
    let hb ← toE (checkedSub g.house_bankroll amount) Err.arithmeticOverflow
    let tp ← toE (checkedAdd g.total_payouts amount) Err.arithmeticOverflow
    Except.ok ({ g with house_bankroll := hb, total_payouts := tp }, p, amount)

/-- Core state transition of process_claim_craps_debt (claim_debt.rs lines
66-126): pays min(unpaid_debt, house_bankroll), returning the amount
transferred; zero-debt and empty-bankroll cases succeed with no transfer. -/
def process_claim_craps_debt (g : CrapsGame) (p : CrapsPosition) :
    Except Err (CrapsGame × CrapsPosition × Nat) := do
  if p.unpaid_debt = 0 then Except.ok (g, p, 0)
  else do
    let debt_amount := p.unpaid_debt
    let claimable_amount :=
      if g.house_bankroll ≥ debt_amount then debt_amount else g.house_bankroll
    if claimable_amount = 0 then Except.ok (g, p, 0)
    else do
      let hb ← toE (checkedSub g.house_bankroll claimable_amount) Err.arithmeticOverflow
      let debt ← toE (checkedSub p.unpaid_debt claimable_amount) Err.arithmeticOverflow
      let tp ← toE (checkedAdd g.total_payouts claimable_amount) Err.arithmeticOverflow
      Except.ok ({ g with house_bankroll := hb, total_payouts := tp },
                 { p with unpaid_debt := debt }, claimable_amount)

-- ==================== VERIFICATION: SHARED DEFINITIONS ====================

def release_amount (bet_amount num den : Nat) : Nat :=
  satAdd bet_amount (satMul bet_amount num / max den 1)
def acceptedCategoryPoint (bt pt : Nat) : Prop :=
  (bt = 0 ∨ bt = 1 ∨ bt = 10 ∨ bt = 11 ∨ bt = 12 ∨ bt = 13 ∨ bt = 14 ∨ bt = 15)
  ∨ ((bt = 2 ∨ bt = 3 ∨ bt = 4 ∨ bt = 5 ∨ bt = 6 ∨ bt = 7 ∨ bt = 8)
      ∧ (pt = 4 ∨ pt = 5 ∨ pt = 6 ∨ pt = 8 ∨ pt = 9 ∨ pt = 10))
  ∨ (bt = 9 ∧ (pt = 4 ∨ pt = 6 ∨ pt = 8 ∨ pt = 10))
  ∨ ((bt = 26 ∨ bt = 27) ∧ 2 ≤ pt ∧ pt ≤ 12 ∧ pt ≠ 7)
  ∨ (bt = 28 ∧ 2 ≤ pt ∧ pt ≤ 12)
def settlement_release_ratio (bt pt : Nat) : Nat × Nat :=
  if bt = 0 ∨ bt = 1 ∨ bt = 4 ∨ bt = 5 then (PASS_LINE_PAYOUT_NUM, PASS_LINE_PAYOUT_DEN)
  else if bt = 2 ∨ bt = 3 ∨ bt = 6 ∨ bt = 7 then get_true_odds_payout pt
  else if bt = 8 then get_place_payout pt
  else if bt = 9 then
    if pt = 4 ∨ pt = 10 then (HARD_4_10_PAYOUT_NUM, HARD_4_10_PAYOUT_DEN)
    else (HARD_6_8_PAYOUT_NUM, HARD_6_8_PAYOUT_DEN)
  else if bt = 10 then (FIELD_PAYOUT_2_12_NUM, FIELD_PAYOUT_2_12_DEN)
  else if bt = 11 then (ANY_SEVEN_PAYOUT_NUM, ANY_SEVEN_PAYOUT_DEN)
  else if bt = 12 then (ANY_CRAPS_PAYOUT_NUM, ANY_CRAPS_PAYOUT_DEN)
  else if bt = 13 then (YO_ELEVEN_PAYOUT_NUM, YO_ELEVEN_PAYOUT_DEN)
  else if bt = 14 then (ACES_PAYOUT_NUM, ACES_PAYOUT_DEN)
  else if bt = 15 then (TWELVE_PAYOUT_NUM, TWELVE_PAYOUT_DEN)
  else if bt = 26 then get_yes_payout pt
  else if bt = 27 then get_no_payout pt
  else if bt = 28 then get_next_payout pt
  else (0, 1)
def gamePhase (g : CrapsGame) : Nat × Nat × Nat := (g.epoch_id, g.point, g.is_come_out)
def initialGame1000 : CrapsGame :=
  { epoch_id := 1, point := 0, is_come_out := 1, epoch_start_round := 0,
    house_bankroll := 1000, total_payouts := 0, total_collected := 0,
    reserved_payouts := 0 }
def pointPhaseGame : CrapsGame :=
  { epoch_id := 1, point := 6, is_come_out := 0, epoch_start_round := 0,
    house_bankroll := 1000, total_payouts := 0, total_collected := 0,
    reserved_payouts := 0 }
def bankGame100 : CrapsGame :=
  { epoch_id := 1, point := 0, is_come_out := 1, epoch_start_round := 0,
    house_bankroll := 100, total_payouts := 0, total_collected := 0,
    reserved_payouts := 0 }
def reservedGame500 : CrapsGame :=
  { epoch_id := 1, point := 0, is_come_out := 1, epoch_start_round := 0,
    house_bankroll := 1000, total_payouts := 0, total_collected := 0,
    reserved_payouts := 500 }
def posPassLine : CrapsPosition :=
  { emptyPosition 1 with pass_line := 100 }
def posDebt250 : CrapsPosition :=
  { emptyPosition 1 with unpaid_debt := 250 }
def posPending40 : CrapsPosition :=
  { emptyPosition 1 with pending_winnings := 40 }
def c3ResG : CrapsGame :=
  ((process_settle_craps pointPhaseGame posPassLine 3 5).toOption.getD
    (pointPhaseGame, posPassLine)).1
def c3ResP : CrapsPosition :=
  ((process_settle_craps pointPhaseGame posPassLine 3 5).toOption.getD
    (pointPhaseGame, posPassLine)).2

-- ==================== VERIFICATION: HELPER LEMMAS ====================

set_option maxHeartbeats 1600000
set_option maxRecDepth 16384

theorem ok_bind {α β : Type} (a : α) (f : α → Except Err β) :
    (Except.ok a : Except Err α) >>= f = f a := rfl

theorem err_bind {α β : Type} (e : Err) (f : α → Except Err β) :
    (Except.error e : Except Err α) >>= f = Except.error e := rfl

theorem toE_checkedAdd {a b : Nat} (h : a + b ≤ U64MAX) (e : Err) :
    toE (checkedAdd a b) e = Except.ok (a + b) := by
  simp [toE, checkedAdd, h]

theorem toE_checkedSub {a b : Nat} (h : b ≤ a) (e : Err) :
    toE (checkedSub a b) e = Except.ok (a - b) := by
  simp [toE, checkedSub, h]

theorem toE_checkedSub_err {a b : Nat} (h : a < b) (e : Err) :
    toE (checkedSub a b) e = Except.error e := by
  have hc : checkedSub a b = none := by
    simp only [checkedSub]
    rw [if_neg (show ¬ b ≤ a by omega)]
  rw [hc]
  rfl

theorem calculate_max_payout_invalid (bt pt amount : Nat)
    (hbt : (16 ≤ bt ∧ bt ≤ 25) ∨ 29 ≤ bt) :
    calculate_max_payout bt pt amount = some amount := by
  rcases hbt with ⟨h1, h2⟩ | h <;>
    (unfold calculate_max_payout
     repeat rw [if_neg (by omega)])

theorem applyBet_invalid (bt pt amount : Nat)
    (hbt : (16 ≤ bt ∧ bt ≤ 25) ∨ 29 ≤ bt) (g : CrapsGame) (p : CrapsPosition) :
    applyBet bt pt amount g p = Except.error Err.invalidBetType := by
  rcases hbt with ⟨h1, h2⟩ | h <;>
    (unfold applyBet
     repeat rw [if_neg (by omega)])

theorem release_reserved_payout_eq (g : CrapsGame) (b n d : Nat) :
    release_reserved_payout g b n d
      = { g with reserved_payouts := g.reserved_payouts - release_amount b n d } := by
  simp only [release_reserved_payout, checkedSub, release_amount]
  split_ifs with h
  · rfl
  · rw [show g.reserved_payouts - satAdd b (satMul b n / max d 1) = 0 by omega]

theorem calcMax_release {num den amount mp : Nat} (hden : den ≠ 0)
    (h : calcMax num den amount = some mp) :
    release_amount amount num den = mp := by
  simp only [calcMax, checkedMul, checkedDiv, checkedAdd] at h
  split_ifs at h with h1
  simp [hden] at h
  obtain ⟨h3, hmp2⟩ := h
  simp only [release_amount, satAdd, satMul]
  rw [Nat.max_eq_left (by omega), min_eq_left h1, min_eq_left h3]
  exact hmp2

theorem release_ratio_matches_calcMax (bt pt amount mp : Nat)
    (haccept : acceptedCategoryPoint bt pt)
    (hmp : calculate_max_payout bt pt amount = some mp) :
    release_amount amount (settlement_release_ratio bt pt).1
      (settlement_release_ratio bt pt).2 = mp := by
  rcases haccept with hb | ⟨hb, hp⟩ | ⟨hb, hp⟩ | ⟨hb, hp2, hp12, hp7⟩ | ⟨hb, hp2, hp12⟩
  · rcases hb with rfl | rfl | rfl | rfl | rfl | rfl | rfl | rfl <;>
      (simp only [calculate_max_payout] at hmp
       norm_num at hmp
       simp only [settlement_release_ratio]
       norm_num
       exact calcMax_release (by decide) hmp)
  · rcases hb with rfl | rfl | rfl | rfl | rfl | rfl | rfl <;>
      rcases hp with rfl | rfl | rfl | rfl | rfl | rfl <;>
      (simp only [calculate_max_payout] at hmp
       norm_num at hmp
       simp only [settlement_release_ratio, get_true_odds_payout, get_place_payout]
       norm_num
       exact calcMax_release (by decide) hmp)
  · subst hb
    rcases hp with rfl | rfl | rfl | rfl <;>
      (simp only [calculate_max_payout] at hmp
       norm_num at hmp
       simp only [settlement_release_ratio]
       norm_num
       exact calcMax_release (by decide) hmp)
  · rcases hb with rfl | rfl <;> interval_cases pt <;>
      first
        | exact absurd rfl hp7
        | (simp only [calculate_max_payout] at hmp
           norm_num at hmp
           simp only [settlement_release_ratio, get_yes_payout, get_no_payout]
           norm_num
           exact calcMax_release (by decide) hmp)
  · subst hb
    interval_cases pt <;>
      (simp only [calculate_max_payout] at hmp
       norm_num at hmp
       simp only [settlement_release_ratio, get_next_payout]
       norm_num
       exact calcMax_release (by decide) hmp)

theorem gamePhase_release (g : CrapsGame) (b n d : Nat) :
    gamePhase (release_reserved_payout g b n d) = gamePhase g := by
  simp only [release_reserved_payout, checkedSub]
  split_ifs <;> rfl

theorem gamePhase_parts {g1 g2 : CrapsGame} (h : gamePhase g1 = gamePhase g2) :
    g1.epoch_id = g2.epoch_id ∧ g1.point = g2.point ∧ g1.is_come_out = g2.is_come_out := by
  simpa [gamePhase, Prod.ext_iff] using h

theorem bind_ok {α β : Type} {x : Except Err α} {f : α → Except Err β} {b : β}
    (h : x >>= f = Except.ok b) : ∃ a, x = Except.ok a ∧ f a = Except.ok b := by
  cases x with
  | ok a => exact ⟨a, rfl, h⟩
  | error e => exact Except.noConfusion h

theorem creditWin_ok {st st' : SettleSt} {b w : Nat}
    (h : creditWin st b w = Except.ok st') :
    st'.game = st.game ∧ st'.pos = st.pos := by
  simp only [creditWin] at h
  obtain ⟨wa, hwa, h⟩ := bind_ok h
  obtain ⟨w2, hw2, h⟩ := bind_ok h
  cases h
  exact ⟨rfl, rfl⟩

theorem creditLoss_ok {st st' : SettleSt} {b : Nat}
    (h : creditLoss st b = Except.ok st') :
    st'.game = st.game ∧ st'.pos = st.pos := by
  simp only [creditLoss] at h
  obtain ⟨l2, hl2, h⟩ := bind_ok h
  cases h
  exact ⟨rfl, rfl⟩

theorem get_point_getD (g : CrapsGame) : g.get_point.getD 0 = g.point := by
  simp only [CrapsGame.get_point]
  split_ifs with h <;> simp [h]

theorem settleField_phase {ds : Nat} {st st' : SettleSt}
    (h : settleField ds st = Except.ok st') :
    gamePhase st'.game = gamePhase st.game := by
  simp only [settleField] at h
  split_ifs at h <;>
    first
      | (cases h; rfl)
      | (obtain ⟨a, ha, h2⟩ := bind_ok h
         cases h2
         simp only [gamePhase_release]
         first
           | (rw [(creditWin_ok ha).1]; rfl)
           | (rw [(creditLoss_ok ha).1]; rfl)
           | rw [(creditWin_ok ha).1]
           | rw [(creditLoss_ok ha).1])

theorem settleAnySeven_phase {ds : Nat} {st st' : SettleSt}
    (h : settleAnySeven ds st = Except.ok st') :
    gamePhase st'.game = gamePhase st.game := by
  simp only [settleAnySeven] at h
  split_ifs at h <;>
    first
      | (cases h; rfl)
      | (obtain ⟨a, ha, h2⟩ := bind_ok h
         cases h2
         simp only [gamePhase_release]
         first
           | (rw [(creditWin_ok ha).1]; rfl)
           | (rw [(creditLoss_ok ha).1]; rfl)
           | rw [(creditWin_ok ha).1]
           | rw [(creditLoss_ok ha).1])

theorem settleAnyCraps_phase {ds : Nat} {st st' : SettleSt}
    (h : settleAnyCraps ds st = Except.ok st') :
    gamePhase st'.game = gamePhase st.game := by
  simp only [settleAnyCraps] at h
  split_ifs at h <;>
    first
      | (cases h; rfl)
      | (obtain ⟨a, ha, h2⟩ := bind_ok h
         cases h2
         simp only [gamePhase_release]
         first
           | (rw [(creditWin_ok ha).1]; rfl)
           | (rw [(creditLoss_ok ha).1]; rfl)
           | rw [(creditWin_ok ha).1]
           | rw [(creditLoss_ok ha).1])

theorem settleYoEleven_phase {ds : Nat} {st st' : SettleSt}
    (h : settleYoEleven ds st = Except.ok st') :
    gamePhase st'.game = gamePhase st.game := by
  simp only [settleYoEleven] at h
  split_ifs at h <;>
    first
      | (cases h; rfl)
      | (obtain ⟨a, ha, h2⟩ := bind_ok h
         cases h2
         simp only [gamePhase_release]
         first
           | (rw [(creditWin_ok ha).1]; rfl)
           | (rw [(creditLoss_ok ha).1]; rfl)
           | rw [(creditWin_ok ha).1]
           | rw [(creditLoss_ok ha).1])

theorem settleAces_phase {ds : Nat} {st st' : SettleSt}
    (h : settleAces ds st = Except.ok st') :
    gamePhase st'.game = gamePhase st.game := by
  simp only [settleAces] at h
  split_ifs at h <;>
    first
      | (cases h; rfl)
      | (obtain ⟨a, ha, h2⟩ := bind_ok h
         cases h2
         simp only [gamePhase_release]
         first
           | (rw [(creditWin_ok ha).1]; rfl)
           | (rw [(creditLoss_ok ha).1]; rfl)
           | rw [(creditWin_ok ha).1]
           | rw [(creditLoss_ok ha).1])

theorem settleTwelve_phase {ds : Nat} {st st' : SettleSt}
    (h : settleTwelve ds st = Except.ok st') :
    gamePhase st'.game = gamePhase st.game := by
  simp only [settleTwelve] at h
  split_ifs at h <;>
    first
      | (cases h; rfl)
      | (obtain ⟨a, ha, h2⟩ := bind_ok h
         cases h2
         simp only [gamePhase_release]
         first
           | (rw [(creditWin_ok ha).1]; rfl)
           | (rw [(creditLoss_ok ha).1]; rfl)
           | rw [(creditWin_ok ha).1]
           | rw [(creditLoss_ok ha).1])

theorem settleNextOne_phase {ds i : Nat} {st st' : SettleSt}
    (h : settleNextOne ds i st = Except.ok st') :
    gamePhase st'.game = gamePhase st.game := by
  simp only [settleNextOne] at h
  split_ifs at h <;>
    first
      | (cases h; rfl)
      | (obtain ⟨a, ha, h2⟩ := bind_ok h
         cases h2
         simp only [gamePhase_release]
         first
           | (rw [(creditWin_ok ha).1]; rfl)
           | (rw [(creditLoss_ok ha).1]; rfl)
           | rw [(creditWin_ok ha).1]
           | rw [(creditLoss_ok ha).1])

theorem settleFieldersOne_phase {ds i : Nat} {st st' : SettleSt}
    (h : settleFieldersOne ds i st = Except.ok st') :
    gamePhase st'.game = gamePhase st.game := by
  simp only [settleFieldersOne] at h
  split_ifs at h <;>
    first
      | (cases h; rfl)
      | (obtain ⟨a, ha, h2⟩ := bind_ok h
         cases h2
         simp only [gamePhase_release]
         first
           | (rw [(creditWin_ok ha).1]; rfl)
           | (rw [(creditLoss_ok ha).1]; rfl)
           | rw [(creditWin_ok ha).1]
           | rw [(creditLoss_ok ha).1])

theorem settleMugsy_phase {ds : Nat} {st st' : SettleSt}
    (h : settleMugsy ds st = Except.ok st') :
    gamePhase st'.game = gamePhase st.game := by
  simp only [settleMugsy] at h
  split_ifs at h <;>
    first
      | (cases h; rfl)
      | (obtain ⟨a, ha, h2⟩ := bind_ok h
         cases h2
         simp only [gamePhase_release]
         first
           | (rw [(creditWin_ok ha).1]; rfl)
           | (rw [(creditLoss_ok ha).1]; rfl)
           | rw [(creditWin_ok ha).1]
           | rw [(creditLoss_ok ha).1])

theorem settleHardwayOne_phase {ds : Nat} {ib : Bool} {sq i : Nat} {st st' : SettleSt}
    (h : settleHardwayOne ds ib sq i st = Except.ok st') :
    gamePhase st'.game = gamePhase st.game := by
  simp only [settleHardwayOne] at h
  split_ifs at h <;>
    first
      | (cases h; rfl)
      | (obtain ⟨a, ha, h2⟩ := bind_ok h
         cases h2
         simp only [gamePhase_release]
         first
           | (rw [(creditWin_ok ha).1]; rfl)
           | (rw [(creditLoss_ok ha).1]; rfl)
           | rw [(creditWin_ok ha).1]
           | rw [(creditLoss_ok ha).1])

theorem settleYesOne_phase {ds i : Nat} {st st' : SettleSt}
    (h : settleYesOne ds i st = Except.ok st') :
    gamePhase st'.game = gamePhase st.game := by
  simp only [settleYesOne] at h
  split_ifs at h <;>
    first
      | (cases h; rfl)
      | (obtain ⟨a, ha, h2⟩ := bind_ok h
         cases h2
         simp only [gamePhase_release]
         first
           | (rw [(creditWin_ok ha).1]; rfl)
           | (rw [(creditLoss_ok ha).1]; rfl)
           | rw [(creditWin_ok ha).1]
           | rw [(creditLoss_ok ha).1])

theorem settleNoOne_phase {ds i : Nat} {st st' : SettleSt}
    (h : settleNoOne ds i st = Except.ok st') :
    gamePhase st'.game = gamePhase st.game := by
  simp only [settleNoOne] at h
  split_ifs at h <;>
    first
      | (cases h; rfl)
      | (obtain ⟨a, ha, h2⟩ := bind_ok h
         cases h2
         simp only [gamePhase_release]
         first
           | (rw [(creditWin_ok ha).1]; rfl)
           | (rw [(creditLoss_ok ha).1]; rfl)
           | rw [(creditWin_ok ha).1]
           | rw [(creditLoss_ok ha).1])

theorem settleDiffDoubles_phase {ds d1 d2 : Nat} {st st' : SettleSt}
    (h : settleDiffDoubles ds d1 d2 st = Except.ok st') :
    gamePhase st'.game = gamePhase st.game := by
  simp only [settleDiffDoubles] at h
  split_ifs at h <;>
    first
      | (cases h; rfl)
      | (obtain ⟨a, ha, h2⟩ := bind_ok h
         cases h2
         simp only [gamePhase_release]
         first
           | (rw [(creditWin_ok ha).1]; rfl)
           | (rw [(creditLoss_ok ha).1]; rfl)
           | rw [(creditWin_ok ha).1]
           | rw [(creditLoss_ok ha).1])

theorem settleHotHand_phase {ds : Nat} {st st' : SettleSt}
    (h : settleHotHand ds st = Except.ok st') :
    gamePhase st'.game = gamePhase st.game := by
  simp only [settleHotHand] at h
  split_ifs at h <;>
    first
      | (cases h; rfl)
      | (obtain ⟨a, ha, h2⟩ := bind_ok h
         cases h2
         simp only [gamePhase_release]
         first
           | (rw [(creditWin_ok ha).1]; rfl)
           | (rw [(creditLoss_ok ha).1]; rfl)
           | rw [(creditWin_ok ha).1]
           | rw [(creditLoss_ok ha).1])

theorem bonusLoseSmall_phase {st st' : SettleSt}
    (h : bonusLoseSmall st = Except.ok st') :
    gamePhase st'.game = gamePhase st.game := by
  simp only [bonusLoseSmall] at h
  split_ifs at h <;>
    first
      | (cases h; rfl)
      | (obtain ⟨a, ha, h2⟩ := bind_ok h
         cases h2
         simp only [gamePhase_release]
         first
           | (rw [(creditWin_ok ha).1]; rfl)
           | (rw [(creditLoss_ok ha).1]; rfl)
           | rw [(creditWin_ok ha).1]
           | rw [(creditLoss_ok ha).1])

theorem bonusLoseTall_phase {st st' : SettleSt}
    (h : bonusLoseTall st = Except.ok st') :
    gamePhase st'.game = gamePhase st.game := by
  simp only [bonusLoseTall] at h
  split_ifs at h <;>
    first
      | (cases h; rfl)
      | (obtain ⟨a, ha, h2⟩ := bind_ok h
         cases h2
         simp only [gamePhase_release]
         first
           | (rw [(creditWin_ok ha).1]; rfl)
           | (rw [(creditLoss_ok ha).1]; rfl)
           | rw [(creditWin_ok ha).1]
           | rw [(creditLoss_ok ha).1])

theorem bonusLoseAll_phase {st st' : SettleSt}
    (h : bonusLoseAll st = Except.ok st') :
    gamePhase st'.game = gamePhase st.game := by
  simp only [bonusLoseAll] at h
  split_ifs at h <;>
    first
      | (cases h; rfl)
      | (obtain ⟨a, ha, h2⟩ := bind_ok h
         cases h2
         simp only [gamePhase_release]
         first
           | (rw [(creditWin_ok ha).1]; rfl)
           | (rw [(creditLoss_ok ha).1]; rfl)
           | rw [(creditWin_ok ha).1]
           | rw [(creditLoss_ok ha).1])

theorem bonusWinSmall_phase {fl : Bool} {st st' : SettleSt}
    (h : bonusWinSmall fl st = Except.ok st') :
    gamePhase st'.game = gamePhase st.game := by
  simp only [bonusWinSmall] at h
  split_ifs at h <;>
    first
      | (cases h; rfl)
      | (obtain ⟨a, ha, h2⟩ := bind_ok h
         cases h2
         simp only [gamePhase_release]
         first
           | (rw [(creditWin_ok ha).1]; rfl)
           | (rw [(creditLoss_ok ha).1]; rfl)
           | rw [(creditWin_ok ha).1]
           | rw [(creditLoss_ok ha).1])

theorem bonusWinTall_phase {fl : Bool} {st st' : SettleSt}
    (h : bonusWinTall fl st = Except.ok st') :
    gamePhase st'.game = gamePhase st.game := by
  simp only [bonusWinTall] at h
  split_ifs at h <;>
    first
      | (cases h; rfl)
      | (obtain ⟨a, ha, h2⟩ := bind_ok h
         cases h2
         simp only [gamePhase_release]
         first
           | (rw [(creditWin_ok ha).1]; rfl)
           | (rw [(creditLoss_ok ha).1]; rfl)
           | rw [(creditWin_ok ha).1]
           | rw [(creditLoss_ok ha).1])

theorem bonusWinAll_phase {st st' : SettleSt}
    (h : bonusWinAll st = Except.ok st') :
    gamePhase st'.game = gamePhase st.game := by
  simp only [bonusWinAll] at h
  split_ifs at h <;>
    first
      | (cases h; rfl)
      | (obtain ⟨a, ha, h2⟩ := bind_ok h
         cases h2
         simp only [gamePhase_release]
         first
           | (rw [(creditWin_ok ha).1]; rfl)
           | (rw [(creditLoss_ok ha).1]; rfl)
           | rw [(creditWin_ok ha).1]
           | rw [(creditLoss_ok ha).1])

theorem sevenOutFire_phase {st st' : SettleSt}
    (h : sevenOutFire st = Except.ok st') :
    gamePhase st'.game = gamePhase st.game := by
  simp only [sevenOutFire] at h
  split_ifs at h <;>
    first
      | (cases h; rfl)
      | (obtain ⟨a, ha, h2⟩ := bind_ok h
         cases h2
         simp only [gamePhase_release]
         first
           | (rw [(creditWin_ok ha).1]; rfl)
           | (rw [(creditLoss_ok ha).1]; rfl)
           | rw [(creditWin_ok ha).1]
           | rw [(creditLoss_ok ha).1])

theorem sevenOutRide_phase {st st' : SettleSt}
    (h : sevenOutRide st = Except.ok st') :
    gamePhase st'.game = gamePhase st.game := by
  simp only [sevenOutRide] at h
  split_ifs at h <;>
    first
      | (cases h; rfl)
      | (obtain ⟨a, ha, h2⟩ := bind_ok h
         cases h2
         simp only [gamePhase_release]
         first
           | (rw [(creditWin_ok ha).1]; rfl)
           | (rw [(creditLoss_ok ha).1]; rfl)
           | rw [(creditWin_ok ha).1]
           | rw [(creditLoss_ok ha).1])

theorem sevenOutReplay_phase {st st' : SettleSt}
    (h : sevenOutReplay st = Except.ok st') :
    gamePhase st'.game = gamePhase st.game := by
  simp only [sevenOutReplay] at h
  split_ifs at h <;>
    first
      | (cases h; rfl)
      | (obtain ⟨a, ha, h2⟩ := bind_ok h
         cases h2
         simp only [gamePhase_release]
         first
           | (rw [(creditWin_ok ha).1]; rfl)
           | (rw [(creditLoss_ok ha).1]; rfl)
           | rw [(creditWin_ok ha).1]
           | rw [(creditLoss_ok ha).1])

theorem settlePlaceOne_phase {ds i : Nat} {st st' : SettleSt}
    (h : settlePlaceOne ds i st = Except.ok st') :
    gamePhase st'.game = gamePhase st.game := by
  simp only [settlePlaceOne] at h
  split_ifs at h <;>
    first
      | (cases h; rfl)
      | (cases hip : index_to_point i with
          | none => rw [hip] at h; cases h; rfl
          | some pn =>
            rw [hip] at h
            simp only [] at h
            split_ifs at h <;>
              first
                | (cases h; rfl)
                | (obtain ⟨a, ha, h2⟩ := bind_ok h
                   cases h2
                   simp only [gamePhase_release]
                   first
                     | rw [(creditWin_ok ha).1]
                     | rw [(creditLoss_ok ha).1]))

theorem sevenOutPass_phase {pt : Nat} {st st' : SettleSt}
    (h : sevenOutPass pt st = Except.ok st') :
    gamePhase st'.game = gamePhase st.game := by
  simp only [sevenOutPass] at h
  split_ifs at h
  · obtain ⟨n0, hn0, h⟩ := bind_ok h
    obtain ⟨a, ha, h⟩ := bind_ok h
    cases h
    have hag := (creditLoss_ok ha).1
    first
      | (split_ifs <;> simp [gamePhase_release, hag])
      | simp [gamePhase_release, hag]
  · cases h
    rfl

theorem sevenOutDontPass_phase {pt : Nat} {st st' : SettleSt}
    (h : sevenOutDontPass pt st = Except.ok st') :
    gamePhase st'.game = gamePhase st.game := by
  simp only [sevenOutDontPass] at h
  split_ifs at h
  · obtain ⟨a, ha, h⟩ := bind_ok h
    have hag := (creditWin_ok ha).1
    split_ifs at h
    · obtain ⟨b, hb, h⟩ := bind_ok h
      have hbg := (creditWin_ok hb).1
      cases h
      simp [gamePhase_release, hag, hbg]
    · cases h
      simp [gamePhase_release, hag]
  · cases h
    rfl

theorem comeHalf_phase {ds i : Nat} {st st' : SettleSt}
    (h : comeHalf ds i st = Except.ok st') :
    gamePhase st'.game = gamePhase st.game := by
  simp only [comeHalf] at h
  by_cases h1 : st.pos.come_bets.getD i 0 > 0
  case neg => rw [if_neg h1] at h; cases h; rfl
  case pos =>
    rw [if_pos h1] at h
    cases hip : index_to_point i with
    | none => rw [hip] at h; simp only [] at h; cases h; rfl
    | some pn =>
      rw [hip] at h
      simp only [] at h
      by_cases h2 : ds = pn
      · rw [if_pos h2] at h
        obtain ⟨a, ha, h⟩ := bind_ok h
        have hag := (creditWin_ok ha).1
        split_ifs at h
        · obtain ⟨b, hb, h⟩ := bind_ok h
          have hbg := (creditWin_ok hb).1
          cases h
          simp [gamePhase_release, hag, hbg]
        · cases h
          simp [gamePhase_release, hag]
      · rw [if_neg h2] at h
        by_cases h3 : ds = 7
        · rw [if_pos h3] at h
          obtain ⟨n0, hn0, h⟩ := bind_ok h
          obtain ⟨a, ha, h⟩ := bind_ok h
          have hag := (creditLoss_ok ha).1
          cases h
          first
            | (split_ifs <;> simp [gamePhase_release, hag])
            | simp [gamePhase_release, hag]
        · rw [if_neg h3] at h
          cases h
          rfl

theorem dontComeHalf_phase {ds i : Nat} {st st' : SettleSt}
    (h : dontComeHalf ds i st = Except.ok st') :
    gamePhase st'.game = gamePhase st.game := by
  simp only [dontComeHalf] at h
  by_cases h1 : st.pos.dont_come_bets.getD i 0 > 0
  case neg => rw [if_neg h1] at h; cases h; rfl
  case pos =>
    rw [if_pos h1] at h
    cases hip : index_to_point i with
    | none => rw [hip] at h; simp only [] at h; cases h; rfl
    | some pn =>
      rw [hip] at h
      simp only [] at h
      by_cases h2 : ds = 7
      · rw [if_pos h2] at h
        obtain ⟨a, ha, h⟩ := bind_ok h
        have hag := (creditWin_ok ha).1
        split_ifs at h
        · obtain ⟨b, hb, h⟩ := bind_ok h
          have hbg := (creditWin_ok hb).1
          cases h
          simp [gamePhase_release, hag, hbg]
        · cases h
          simp [gamePhase_release, hag]
      · rw [if_neg h2] at h
        by_cases h3 : ds = pn
        · rw [if_pos h3] at h
          obtain ⟨n0, hn0, h⟩ := bind_ok h
          obtain ⟨a, ha, h⟩ := bind_ok h
          have hag := (creditLoss_ok ha).1
          cases h
          first
            | (split_ifs <;> simp [gamePhase_release, hag])
            | simp [gamePhase_release, hag]
        · rw [if_neg h3] at h
          cases h
          rfl

theorem settleComeOne_phase {ds i : Nat} {st st' : SettleSt}
    (h : settleComeOne ds i st = Except.ok st') :
    gamePhase st'.game = gamePhase st.game := by
  simp only [settleComeOne] at h
  obtain ⟨a, ha, h⟩ := bind_ok h
  exact (dontComeHalf_phase h).trans (comeHalf_phase ha)

theorem settleBonus_phase {ds : Nat} {st st' : SettleSt}
    (h : settleBonus ds st = Except.ok st') :
    gamePhase st'.game = gamePhase st.game := by
  simp only [settleBonus] at h
  split_ifs at h
  · obtain ⟨a1, h1, h⟩ := bind_ok h
    obtain ⟨a2, h2, h⟩ := bind_ok h
    obtain ⟨a3, h3, h⟩ := bind_ok h
    cases h
    exact ((bonusLoseAll_phase h3).trans ((bonusLoseTall_phase h2).trans
      (bonusLoseSmall_phase h1)))
  · obtain ⟨a1, h1, h⟩ := bind_ok h
    obtain ⟨a2, h2, h⟩ := bind_ok h
    have g1 := bonusWinSmall_phase h1
    have g2 := bonusWinTall_phase h2
    have g3 := bonusWinAll_phase h
    exact g3.trans (g2.trans g1)
  · cases h
    rfl

theorem settleNextLoop_phase {ds : Nat} : ∀ {l : List Nat} {st st' : SettleSt},
    settleNextLoop ds l st = Except.ok st' →
    gamePhase st'.game = gamePhase st.game := by
  intro l
  induction l with
  | nil => intro st st' h; cases h; rfl
  | cons i rest ihl =>
      intro st st' h
      simp only [settleNextLoop] at h
      obtain ⟨a, ha, h2⟩ := bind_ok h
      exact (ihl h2).trans (settleNextOne_phase ha)

theorem settleFieldersLoop_phase {ds : Nat} : ∀ {l : List Nat} {st st' : SettleSt},
    settleFieldersLoop ds l st = Except.ok st' →
    gamePhase st'.game = gamePhase st.game := by
  intro l
  induction l with
  | nil => intro st st' h; cases h; rfl
  | cons i rest ihl =>
      intro st st' h
      simp only [settleFieldersLoop] at h
      obtain ⟨a, ha, h2⟩ := bind_ok h
      exact (ihl h2).trans (settleFieldersOne_phase ha)

theorem settleYesLoop_phase {ds : Nat} : ∀ {l : List Nat} {st st' : SettleSt},
    settleYesLoop ds l st = Except.ok st' →
    gamePhase st'.game = gamePhase st.game := by
  intro l
  induction l with
  | nil => intro st st' h; cases h; rfl
  | cons i rest ihl =>
      intro st st' h
      simp only [settleYesLoop] at h
      obtain ⟨a, ha, h2⟩ := bind_ok h
      exact (ihl h2).trans (settleYesOne_phase ha)

theorem settleNoLoop_phase {ds : Nat} : ∀ {l : List Nat} {st st' : SettleSt},
    settleNoLoop ds l st = Except.ok st' →
    gamePhase st'.game = gamePhase st.game := by
  intro l
  induction l with
  | nil => intro st st' h; cases h; rfl
  | cons i rest ihl =>
      intro st st' h
      simp only [settleNoLoop] at h
      obtain ⟨a, ha, h2⟩ := bind_ok h
      exact (ihl h2).trans (settleNoOne_phase ha)

theorem settlePlaceLoop_phase {ds : Nat} : ∀ {l : List Nat} {st st' : SettleSt},
    settlePlaceLoop ds l st = Except.ok st' →
    gamePhase st'.game = gamePhase st.game := by
  intro l
  induction l with
  | nil => intro st st' h; cases h; rfl
  | cons i rest ihl =>
      intro st st' h
      simp only [settlePlaceLoop] at h
      obtain ⟨a, ha, h2⟩ := bind_ok h
      exact (ihl h2).trans (settlePlaceOne_phase ha)

theorem settleComeLoop_phase {ds : Nat} : ∀ {l : List Nat} {st st' : SettleSt},
    settleComeLoop ds l st = Except.ok st' →
    gamePhase st'.game = gamePhase st.game := by
  intro l
  induction l with
  | nil => intro st st' h; cases h; rfl
  | cons i rest ihl =>
      intro st st' h
      simp only [settleComeLoop] at h
      obtain ⟨a, ha, h2⟩ := bind_ok h
      exact (ihl h2).trans (settleComeOne_phase ha)

theorem settleHardwaysLoop_phase {ds : Nat} {ib : Bool} {sq : Nat} :
    ∀ {l : List Nat} {st st' : SettleSt},
    settleHardwaysLoop ds ib sq l st = Except.ok st' →
    gamePhase st'.game = gamePhase st.game := by
  intro l
  induction l with
  | nil => intro st st' h; cases h; rfl
  | cons i rest ihl =>
      intro st st' h
      simp only [settleHardwaysLoop] at h
      obtain ⟨a, ha, h2⟩ := bind_ok h
      exact (ihl h2).trans (settleHardwayOne_phase ha)

theorem placeStage_phase {ds : Nat} {st st' : SettleSt}
    (h : placeStage ds st = Except.ok st') :
    gamePhase st'.game = gamePhase st.game := by
  simp only [placeStage] at h
  split_ifs at h
  · exact settlePlaceLoop_phase h
  · cases h; rfl

theorem finalizeSettle_phase {rid : Nat} {st : SettleSt} {g2 : CrapsGame}
    {p2 : CrapsPosition} (h : finalizeSettle rid st = Except.ok (g2, p2)) :
    gamePhase g2 = gamePhase st.game := by
  simp only [finalizeSettle] at h
  obtain ⟨v1, hv1, h⟩ := bind_ok h
  obtain ⟨v2, hv2, h⟩ := bind_ok h
  obtain ⟨v3, hv3, h⟩ := bind_ok h
  obtain ⟨v4, hv4, h⟩ := bind_ok h
  obtain ⟨v5, hv5, h⟩ := bind_ok h
  split_ifs at h with hWL
  · obtain ⟨v6, hv6, h⟩ := bind_ok h
    split_ifs at h with hnet hbank
    · obtain ⟨v7, hv7, h⟩ := bind_ok h
      cases h
      rfl
    · obtain ⟨v7, hv7, h⟩ := bind_ok h
      obtain ⟨v8, hv8, h⟩ := bind_ok h
      split_ifs at h
      · obtain ⟨v9, hv9, h⟩ := bind_ok h
        cases h
        rfl
      · cases h
        rfl
    · cases h
      rfl
  · obtain ⟨v6, hv6, h⟩ := bind_ok h
    obtain ⟨v7, hv7, h⟩ := bind_ok h
    cases h
    rfl

theorem settleLine_seven {round_id : Nat} {st st' : SettleSt}
    (hco : st.game.is_come_out = 0)
    (hpt : st.game.point ≠ 7)
    (h : settleLine 7 round_id st = Except.ok st') :
    st'.game.epoch_id = (st.game.epoch_id + 1) % U64MOD ∧ st'.game.point = 0
      ∧ st'.game.is_come_out = 1 := by
  simp only [settleLine] at h
  rw [if_neg (show ¬st.game.is_coming_out = true by
    simp [CrapsGame.is_coming_out, hco])] at h
  rw [if_neg (show ¬(7 : Nat) = st.game.get_point.getD 0 by
    rw [get_point_getD]
    intro hc
    exact hpt hc.symm)] at h
  simp only [if_true] at h
  obtain ⟨a1, h1, h⟩ := bind_ok h
  obtain ⟨a2, h2, h⟩ := bind_ok h
  obtain ⟨a3, h3, h⟩ := bind_ok h
  obtain ⟨a4, h4, h⟩ := bind_ok h
  obtain ⟨a5, h5, h⟩ := bind_ok h
  cases h
  have hph : gamePhase a5.game = gamePhase st.game :=
    (sevenOutReplay_phase h5).trans ((sevenOutRide_phase h4).trans
      ((sevenOutFire_phase h3).trans ((sevenOutDontPass_phase h2).trans
        (sevenOutPass_phase h1))))
  obtain ⟨he, hp, hc⟩ := gamePhase_parts hph
  refine ⟨?_, rfl, rfl⟩
  simp only [CrapsGame.start_new_epoch, CrapsGame.clear_point, he]

-- ==================== CLAIMS ====================

/-- C1 (corrected): for every bet category and point combination that placeBet
accepts, a bet settled against the same point it was reserved against has its
reservation released exactly: release_reserved_payout at the settlement payout
ratio subtracts precisely the worst-case payout that calculate_max_payout added
to reserved_payouts at placement. The original claim's further assertion that
this also holds when the placement point argument differs from the actual
settlement point is refuted by c1_odds_point_mismatch_counterexample. -/
theorem c1_release_matches_reservation (g : CrapsGame) (bt pt amount mp : Nat)
    (haccept : acceptedCategoryPoint bt pt)
    (hmp : calculate_max_payout bt pt amount = some mp) :
    release_reserved_payout g amount (settlement_release_ratio bt pt).1
        (settlement_release_ratio bt pt).2
      = { g with reserved_payouts := g.reserved_payouts - mp } := by
  rw [release_reserved_payout_eq,
    release_ratio_matches_calcMax bt pt amount mp haccept hmp]

/-- Concrete instance of c1_release_matches_reservation: a Place bet of 60 on
point 6 reserves 130 = 60 + 60*7/6, and release_reserved_payout at the place
payout ratio for point 6 subtracts exactly 130. -/
theorem c1_release_matches_reservation_witness :
    acceptedCategoryPoint 8 6
    ∧ calculate_max_payout 8 6 60 = some 130
    ∧ release_reserved_payout reservedGame500 60 (settlement_release_ratio 8 6).1
        (settlement_release_ratio 8 6).2
      = { reservedGame500 with
          reserved_payouts := reservedGame500.reserved_payouts - 130 } :=
  ⟨by unfold acceptedCategoryPoint; norm_num, by decide,
   c1_release_matches_reservation reservedGame500 8 6 60 130
     (by unfold acceptedCategoryPoint; norm_num) (by decide)⟩

/-- The point argument of an odds bet is not validated against the game's
point: a pass-odds bet placed with point argument 10 while the game's point is
6 reserves 300 = calculate_max_payout 2 10 100, but its seven-out resolution
releases only 220 = calculate_max_payout 2 6 100, so after every bet has been
resolved reserved_payouts is stuck at 80 instead of returning to 0. -/
theorem c1_odds_point_mismatch_counterexample :
    ∃ g1 p1 g2 p2 g3 p3 g4 p4,
      process_place_craps_bet initialGame1000 (emptyPosition 1) 0 0 100
        = Except.ok (g1, p1)
      ∧ process_settle_craps g1 p1 1 4 = Except.ok (g2, p2)
      ∧ g2.point = 6
      ∧ process_place_craps_bet g2 p2 2 10 100 = Except.ok (g3, p3)
      ∧ calculate_max_payout 2 10 100 = some 300
      ∧ g3.reserved_payouts = g2.reserved_payouts + 300
      ∧ calculate_max_payout 2 g2.point 100 = some 220
      ∧ process_settle_craps g3 p3 2 5 = Except.ok (g4, p4)
      ∧ hasAnyBets p4 = false
      ∧ g4.reserved_payouts = 80
      ∧ g4.reserved_payouts ≠ 0 := by
  refine ⟨_, _, _, _, _, _, _, _, rfl, rfl, rfl, rfl, rfl, rfl, rfl, rfl, rfl,
    rfl, by decide⟩

/-- C2 (corrected): from house_bankroll = 1000 and reserved_payouts = 0, a lone
AnySeven bet of 100 reserves 500 and adds the stake to the bankroll; settling a
square with dice sum 7 credits 500 to pending_winnings, releases the 500
reservation, and leaves house_bankroll at 600 = 1000 + 100 - 500: finalize
deducts the full net payout (winnings including the returned stake), not the
claimed 400 that would leave 700 (refuted by c2_bankroll_700_counterexample). -/
theorem c2_anyseven_scenario_actual :
    ∃ g1 p1 g2 p2,
      process_place_craps_bet initialGame1000 (emptyPosition 1) 11 0 100
        = Except.ok (g1, p1)
      ∧ g1.reserved_payouts = initialGame1000.reserved_payouts + 500
      ∧ g1.house_bankroll = initialGame1000.house_bankroll + 100
      ∧ process_settle_craps g1 p1 1 5 = Except.ok (g2, p2)
      ∧ p2.pending_winnings = p1.pending_winnings + 500
      ∧ g2.reserved_payouts = g1.reserved_payouts - 500
      ∧ g2.house_bankroll = 600 := by
  refine ⟨_, _, _, _, rfl, rfl, rfl, rfl, rfl, rfl, rfl⟩

/-- In the C2 scenario the final house_bankroll is 600, not the 700 the claim
states: the 4:1 AnySeven win pays out 500 (4x profit plus the returned stake)
from the bankroll, not 400. -/
theorem c2_bankroll_700_counterexample :
    ∃ g1 p1 g2 p2,
      process_place_craps_bet initialGame1000 (emptyPosition 1) 11 0 100
        = Except.ok (g1, p1) ∧
      process_settle_craps g1 p1 1 5 = Except.ok (g2, p2) ∧
      g2.house_bankroll = 600 ∧ g2.house_bankroll ≠ 700 := by
  refine ⟨_, _, _, _, rfl, rfl, rfl, by decide⟩

/-- C3 (corrected): in point phase, a settle call whose square has dice sum 7
increments epoch_id by exactly 1 (mod 2^64) and clears the point to 0 -
provided the position has at least one active bet. The original claim's
"including a position with no active bets at all" is refuted by
c3_no_bets_counterexample: the no-bets early return skips the epoch change. -/
theorem c3_seven_out_increments_epoch (g : CrapsGame) (p : CrapsPosition)
    (round_id square : Nat) (g2 : CrapsGame) (p2 : CrapsPosition)
    (hco : g.is_come_out = 0)
    (hpt : g.point = 4 ∨ g.point = 5 ∨ g.point = 6 ∨ g.point = 8 ∨ g.point = 9
      ∨ g.point = 10)
    (hsum : square_to_dice_sum square = 7)
    (hepoch : p.epoch_id = g.epoch_id)
    (hbets : hasAnyBets p = true)
    (hok : process_settle_craps g p round_id square = Except.ok (g2, p2)) :
    g2.epoch_id = (g.epoch_id + 1) % U64MOD ∧ g2.point = 0 := by
  simp only [process_settle_craps] at hok
  rw [if_neg (show ¬p.epoch_id ≠ g.epoch_id by simp [hepoch])] at hok
  split_ifs at hok with hgate
  case neg =>
  rw [hsum] at hok
  obtain ⟨s1, h1, hok⟩ := bind_ok hok
  obtain ⟨s2, h2, hok⟩ := bind_ok hok
  obtain ⟨s3, h3, hok⟩ := bind_ok hok
  obtain ⟨s4, h4, hok⟩ := bind_ok hok
  obtain ⟨s5, h5, hok⟩ := bind_ok hok
  obtain ⟨s6, h6, hok⟩ := bind_ok hok
  obtain ⟨s7, h7, hok⟩ := bind_ok hok
  obtain ⟨s8, h8, hok⟩ := bind_ok hok
  obtain ⟨s9, h9, hok⟩ := bind_ok hok
  obtain ⟨s10, h10, hok⟩ := bind_ok hok
  obtain ⟨s11, h11, hok⟩ := bind_ok hok
  obtain ⟨s12, h12, hok⟩ := bind_ok hok
  obtain ⟨s13, h13, hok⟩ := bind_ok hok
  obtain ⟨s14, h14, hok⟩ := bind_ok hok
  obtain ⟨s15, h15, hok⟩ := bind_ok hok
  obtain ⟨s16, h16, hok⟩ := bind_ok hok
  obtain ⟨s17, h17, hok⟩ := bind_ok hok
  obtain ⟨s18, h18, hok⟩ := bind_ok hok
  have hph : gamePhase s17.game
      = gamePhase (({ game := g, pos := p, winnings := 0, lost := 0 } : SettleSt).game) :=
    (settleComeLoop_phase h17).trans ((settleNoLoop_phase h16).trans
      ((settleYesLoop_phase h15).trans ((placeStage_phase h14).trans
        ((settleHardwaysLoop_phase h13).trans ((settleMugsy_phase h12).trans
          ((settleHotHand_phase h11).trans ((settleDiffDoubles_phase h10).trans
            ((settleFieldersLoop_phase h9).trans ((settleBonus_phase h8).trans
              ((settleNextLoop_phase h7).trans ((settleTwelve_phase h6).trans
                ((settleAces_phase h5).trans ((settleYoEleven_phase h4).trans
                  ((settleAnyCraps_phase h3).trans ((settleAnySeven_phase h2).trans
                    (settleField_phase h1))))))))))))))))
  obtain ⟨heq, hpq, hcq⟩ := gamePhase_parts hph
  have hline := @settleLine_seven round_id s17 s18
    (by rw [hcq]; show g.is_come_out = 0; exact hco)
    (by rw [hpq]; show g.point ≠ 7; rcases hpt with h | h | h | h | h | h <;> omega)
    h18
  obtain ⟨hle, hlp, hlc⟩ := hline
  obtain ⟨hfe, hfp, hfc⟩ := gamePhase_parts (finalizeSettle_phase hok)
  constructor
  · rw [hfe, hle, heq]
  · rw [hfp, hlp]

/-- Concrete instance of c3_seven_out_increments_epoch: a pass-line position
seven-outs at point 6 and the epoch advances from 1 to 2 with the point
cleared. -/
theorem c3_seven_out_increments_epoch_witness :
    c3ResG.epoch_id = (pointPhaseGame.epoch_id + 1) % U64MOD ∧ c3ResG.point = 0 :=
  c3_seven_out_increments_epoch pointPhaseGame posPassLine 3 5 c3ResG c3ResP
    rfl (Or.inr (Or.inr (Or.inl rfl))) rfl rfl rfl rfl

/-- A position with no active bets takes the early no-bets return: the call
succeeds, but the seven-sum square neither increments epoch_id nor clears the
point, contradicting "regardless of which bets the position has active". -/
theorem c3_no_bets_counterexample :
    ∃ g2 p2,
      process_settle_craps pointPhaseGame (emptyPosition 1) 3 5
        = Except.ok (g2, p2)
      ∧ square_to_dice_sum 5 = 7
      ∧ pointPhaseGame.is_come_out = 0
      ∧ pointPhaseGame.point = 6
      ∧ hasAnyBets (emptyPosition 1) = false
      ∧ g2.epoch_id = pointPhaseGame.epoch_id
      ∧ g2.point = 6
      ∧ g2.point ≠ 0 := by
  refine ⟨_, _, rfl, rfl, rfl, rfl, rfl, rfl, rfl, by decide⟩

/-- C4 (code bug): the anti-replay guard treats last_updated_round = 0 together
with round_id = 0 as "first settlement", so round 0 can be settled repeatedly.
After a first settle of round 0 pays an AnySeven win of 500, a second settle of
the same round 0 (with a fresh bet placed in between) passes the guard, returns
Ok instead of the AlreadySettled error, and pays again. -/
theorem c4_round_zero_replay :
    ∃ g1 p1 g2 p2 g3 p3 g4 p4,
      process_place_craps_bet initialGame1000 (emptyPosition 1) 11 0 100
        = Except.ok (g1, p1)
      ∧ process_settle_craps g1 p1 0 5 = Except.ok (g2, p2)
      ∧ p2.last_updated_round = 0
      ∧ p2.pending_winnings = 500
      ∧ process_place_craps_bet g2 p2 11 0 100 = Except.ok (g3, p3)
      ∧ process_settle_craps g3 p3 0 5 = Except.ok (g4, p4)
      ∧ p4.pending_winnings = 1000 := by
  refine ⟨_, _, _, _, _, _, _, _, rfl, rfl, rfl, rfl, rfl, rfl, rfl⟩

/-- C5: when total winnings exceed total losses by more than the house
bankroll, settlement still succeeds: the bankroll is driven to exactly 0, the
shortfall is recorded as unpaid_debt, and pending_winnings + unpaid_debt ends
at the position's full entitlement. -/
theorem c5_insolvency_debt (round_id W L : Nat) (g : CrapsGame) (p : CrapsPosition)
    (hW : L + g.house_bankroll < W)
    (h1 : p.pending_winnings + W ≤ U64MAX) (h2 : p.total_won + W ≤ U64MAX)
    (h3 : p.total_lost + L ≤ U64MAX) (h4 : g.total_payouts + W ≤ U64MAX)
    (h5 : g.total_collected + L ≤ U64MAX)
    (h6 : p.unpaid_debt + (W - L - g.house_bankroll) ≤ U64MAX) :
    ∃ g2 p2,
      finalizeSettle round_id { game := g, pos := p, winnings := W, lost := L }
        = Except.ok (g2, p2)
      ∧ g2.house_bankroll = 0
      ∧ p2.unpaid_debt = p.unpaid_debt + (W - L - g.house_bankroll)
      ∧ p2.pending_winnings + p2.unpaid_debt
          = p.pending_winnings + W + p.unpaid_debt := by
  simp only [finalizeSettle, toE_checkedAdd h1, toE_checkedAdd h2, toE_checkedAdd h3,
    toE_checkedAdd h4, toE_checkedAdd h5, ok_bind]
  rw [if_pos (show W > L by omega)]
  rw [toE_checkedSub (show L ≤ W by omega)]
  simp only [ok_bind]
  rw [if_pos (show W - L > 0 by omega)]
  rw [if_neg (show ¬(g.house_bankroll ≥ W - L) by omega)]
  rw [toE_checkedSub (show g.house_bankroll ≤ W - L by omega)]
  simp only [ok_bind]
  rw [toE_checkedAdd h6]
  simp only [ok_bind]
  rw [if_pos (show p.pending_winnings + W ≥ W - L - g.house_bankroll by omega)]
  rw [toE_checkedSub (show W - L - g.house_bankroll ≤ p.pending_winnings + W by omega)]
  simp only [ok_bind]
  refine ⟨_, _, rfl, rfl, rfl, ?_⟩
  simp only []
  omega

/-- Concrete instance of c5_insolvency_debt: winnings 300 against losses 50
with a bankroll of 100 drive the bankroll to 0 and book a 150 debt. -/
theorem c5_insolvency_debt_witness :
    ∃ g2 p2,
      finalizeSettle 1
          { game := bankGame100, pos := emptyPosition 1, winnings := 300, lost := 50 }
        = Except.ok (g2, p2)
      ∧ g2.house_bankroll = 0
      ∧ p2.unpaid_debt
          = (emptyPosition 1).unpaid_debt + (300 - 50 - bankGame100.house_bankroll)
      ∧ p2.pending_winnings + p2.unpaid_debt
          = (emptyPosition 1).pending_winnings + 300 + (emptyPosition 1).unpaid_debt :=
  c5_insolvency_debt 1 300 50 bankGame100 (emptyPosition 1) (by decide) (by decide)
    (by decide) (by decide) (by decide) (by decide) (by decide)

/-- C6: a valid stake whose worst-case payout exceeds the unreserved bankroll
(or whose game already has reserved_payouts above house_bankroll) is rejected
with InsufficientBankroll; the error return means no state change. -/
theorem c6_insufficient_bankroll_rejected (g : CrapsGame) (p : CrapsPosition) (bt pt amount mp : Nat)
    (h0 : 0 < amount) (hmax : amount ≤ MAX_BET_AMOUNT)
    (hmp : calculate_max_payout bt pt amount = some mp)
    (hcond : g.house_bankroll < g.reserved_payouts
      ∨ g.house_bankroll - g.reserved_payouts < mp) :
    process_place_craps_bet g p bt pt amount
      = Except.error Err.insufficientBankroll := by
  simp only [process_place_craps_bet, hmp, ok_bind]
  rw [if_neg (show ¬amount = 0 by omega)]
  rw [if_neg (show ¬amount > MAX_BET_AMOUNT by omega)]
  by_cases hrb : g.house_bankroll < g.reserved_payouts
  · rw [toE_checkedSub_err hrb]
    rfl
  · rw [toE_checkedSub (show g.reserved_payouts ≤ g.house_bankroll by omega)]
    simp only [ok_bind]
    rw [if_pos (show mp > g.house_bankroll - g.reserved_payouts by
      rcases hcond with h | h
      · omega
      · omega)]

/-- Concrete instance of c6_insufficient_bankroll_rejected: an AnySeven stake
of 50 needs a 250 reservation against an unreserved bankroll of 100. -/
theorem c6_insufficient_bankroll_rejected_witness :
    process_place_craps_bet bankGame100 (emptyPosition 1) 11 0 50
      = Except.error Err.insufficientBankroll :=
  c6_insufficient_bankroll_rejected bankGame100 (emptyPosition 1) 11 0 50 250
    (by decide) (by decide) (by decide) (Or.inr (by decide))

/-- C7 (corrected): for every position with at least one outstanding stake in
a family checked by force-settle's has-bets guard, forceSettle fails with
ROUND_NOT_EXPIRED (custom error 2) while the round has not passed its expiry,
and on success zeroes every outstanding stake, credits the forfeited total to
total_collected and total_lost, and releases 2x the forfeited total from
reserved_payouts, saturating at 0. The guard omits the come-odds and
don't-come families, so a position whose only stake lives there is not
covered: see c7_dont_come_invisible_counterexample. -/
theorem c7_force_settle_expiry_and_forfeit (g : CrapsGame) (p : CrapsPosition) (slot expires_at round_id : Nat)
    (hbets : hasAnyBetsForce p = true)
    (hm : totalForfeited p * 2 ≤ U64MAX)
    (hc : g.total_collected + totalForfeited p ≤ U64MAX)
    (hl : p.total_lost + totalForfeited p ≤ U64MAX) :
    (slot ≤ expires_at →
       process_force_settle_craps g p slot expires_at round_id
         = Except.error (Err.custom 2))
    ∧ (expires_at < slot →
       ∃ g2 p2,
         process_force_settle_craps g p slot expires_at round_id = Except.ok (g2, p2)
         ∧ p2.pass_line = 0 ∧ p2.dont_pass = 0 ∧ p2.pass_odds = 0
         ∧ p2.dont_pass_odds = 0 ∧ p2.field_bet = 0 ∧ p2.any_seven = 0
         ∧ p2.any_craps = 0 ∧ p2.yo_eleven = 0 ∧ p2.aces = 0 ∧ p2.twelve = 0
         ∧ p2.come_bets = [0, 0, 0, 0, 0, 0] ∧ p2.come_odds = [0, 0, 0, 0, 0, 0]
         ∧ p2.dont_come_bets = [0, 0, 0, 0, 0, 0]
         ∧ p2.dont_come_odds = [0, 0, 0, 0, 0, 0]
         ∧ p2.place_bets = [0, 0, 0, 0, 0, 0]
         ∧ p2.yes_bets = [0, 0, 0, 0, 0, 0, 0, 0, 0, 0, 0]
         ∧ p2.no_bets = [0, 0, 0, 0, 0, 0, 0, 0, 0, 0, 0]
         ∧ p2.next_bets = [0, 0, 0, 0, 0, 0, 0, 0, 0, 0, 0]
         ∧ p2.hardways = [0, 0, 0, 0]
         ∧ g2.total_collected = g.total_collected + totalForfeited p
         ∧ p2.total_lost = p.total_lost + totalForfeited p
         ∧ g2.reserved_payouts = g.reserved_payouts - 2 * totalForfeited p) := by
  constructor
  · intro h
    simp only [process_force_settle_craps, if_pos h]
  · intro h
    simp only [process_force_settle_craps]
    rw [if_neg (by omega)]
    rw [if_neg (show ¬¬hasAnyBetsForce p = true by simp [hbets])]
    refine ⟨_, _, rfl, rfl, rfl, rfl, rfl, rfl, rfl, rfl, rfl, rfl, rfl, rfl, rfl,
      rfl, rfl, rfl, rfl, rfl, rfl, rfl, ?_, ?_, ?_⟩
    · simp only [satAdd]
      omega
    · simp only [satAdd]
      omega
    · simp only [satSub, satMul]
      omega

/-- Concrete instance of c7_force_settle_expiry_and_forfeit: a pass-line stake
of 100 forfeited at slot 5 past expiry 3. -/
theorem c7_force_settle_expiry_and_forfeit_witness :
    (5 ≤ 3 →
       process_force_settle_craps initialGame1000 posPassLine 5 3 2
         = Except.error (Err.custom 2))
    ∧ (3 < 5 →
       ∃ g2 p2,
         process_force_settle_craps initialGame1000 posPassLine 5 3 2
           = Except.ok (g2, p2)
         ∧ p2.pass_line = 0 ∧ p2.dont_pass = 0 ∧ p2.pass_odds = 0
         ∧ p2.dont_pass_odds = 0 ∧ p2.field_bet = 0 ∧ p2.any_seven = 0
         ∧ p2.any_craps = 0 ∧ p2.yo_eleven = 0 ∧ p2.aces = 0 ∧ p2.twelve = 0
         ∧ p2.come_bets = [0, 0, 0, 0, 0, 0] ∧ p2.come_odds = [0, 0, 0, 0, 0, 0]
         ∧ p2.dont_come_bets = [0, 0, 0, 0, 0, 0]
         ∧ p2.dont_come_odds = [0, 0, 0, 0, 0, 0]
         ∧ p2.place_bets = [0, 0, 0, 0, 0, 0]
         ∧ p2.yes_bets = [0, 0, 0, 0, 0, 0, 0, 0, 0, 0, 0]
         ∧ p2.no_bets = [0, 0, 0, 0, 0, 0, 0, 0, 0, 0, 0]
         ∧ p2.next_bets = [0, 0, 0, 0, 0, 0, 0, 0, 0, 0, 0]
         ∧ p2.hardways = [0, 0, 0, 0]
         ∧ g2.total_collected = initialGame1000.total_collected + totalForfeited posPassLine
         ∧ p2.total_lost = posPassLine.total_lost + totalForfeited posPassLine
         ∧ g2.reserved_payouts
             = initialGame1000.reserved_payouts - 2 * totalForfeited posPassLine) :=
  c7_force_settle_expiry_and_forfeit initialGame1000 posPassLine 5 3 2
    (by decide) (by decide) (by decide) (by decide)

/-- A Don't Come stake is invisible to force-settle's has-bets guard: placing
bet type 5 (Don't Come, point 6) leaves the position with an outstanding stake
that hasAnyBetsForce does not see, so a force settle past expiry takes the
no-bets early return - the call succeeds without zeroing the stake, crediting
the house, or releasing any reservation, refuting "on success it zeroes every
outstanding stake" for every position with an outstanding stake. -/
theorem c7_dont_come_invisible_counterexample :
    ∃ g1 p1 g2 p2,
      process_place_craps_bet initialGame1000 (emptyPosition 1) 5 6 50
        = Except.ok (g1, p1)
      ∧ p1.dont_come_bets = [0, 0, 50, 0, 0, 0]
      ∧ hasAnyBetsForce p1 = false
      ∧ process_force_settle_craps g1 p1 5 3 2 = Except.ok (g2, p2)
      ∧ p2 = p1
      ∧ g2 = g1
      ∧ p2.dont_come_bets ≠ [0, 0, 0, 0, 0, 0] := by
  refine ⟨_, _, _, _, rfl, rfl, rfl, rfl, rfl, rfl, by decide⟩

/-- C8: claimDebt transfers exactly min(unpaid_debt, house_bankroll),
decrementing both; with no debt or an empty bankroll it transfers nothing,
changes nothing, and still succeeds. -/
theorem c8_claim_debt_min_transfer (g : CrapsGame) (p : CrapsPosition)
    (hbound : g.total_payouts + min p.unpaid_debt g.house_bankroll ≤ U64MAX) :
    ∃ g2 p2,
      process_claim_craps_debt g p
        = Except.ok (g2, p2, min p.unpaid_debt g.house_bankroll)
      ∧ g2.house_bankroll = g.house_bankroll - min p.unpaid_debt g.house_bankroll
      ∧ p2.unpaid_debt = p.unpaid_debt - min p.unpaid_debt g.house_bankroll
      ∧ ((p.unpaid_debt = 0 ∨ g.house_bankroll = 0) → g2 = g ∧ p2 = p) := by
  by_cases hd : p.unpaid_debt = 0
  · refine ⟨g, p, ?_, by omega, by omega, fun _ => ⟨rfl, rfl⟩⟩
    simp only [process_claim_craps_debt, if_pos hd]
    rw [show min p.unpaid_debt g.house_bankroll = 0 by omega]
  · by_cases hb : g.house_bankroll = 0
    · refine ⟨g, p, ?_, by omega, by omega, fun _ => ⟨rfl, rfl⟩⟩
      simp only [process_claim_craps_debt, if_neg hd]
      rw [if_pos (show (if g.house_bankroll ≥ p.unpaid_debt then p.unpaid_debt
            else g.house_bankroll) = 0 by
          rw [if_neg (by omega)]; exact hb)]
      rw [show min p.unpaid_debt g.house_bankroll = 0 by omega]
    · have hmin : (if g.house_bankroll ≥ p.unpaid_debt then p.unpaid_debt
          else g.house_bankroll) = min p.unpaid_debt g.house_bankroll := by
        split <;> omega
      simp only [process_claim_craps_debt, if_neg hd, hmin]
      rw [if_neg (show ¬min p.unpaid_debt g.house_bankroll = 0 by omega)]
      rw [toE_checkedSub (show min p.unpaid_debt g.house_bankroll ≤ g.house_bankroll by omega)]
      simp only [ok_bind]
      rw [toE_checkedSub (show min p.unpaid_debt g.house_bankroll ≤ p.unpaid_debt by omega)]
      simp only [ok_bind]
      rw [toE_checkedAdd hbound]
      simp only [ok_bind]
      refine ⟨_, _, rfl, rfl, rfl, fun h => absurd h (by push_neg; exact ⟨hd, hb⟩)⟩

/-- Concrete instance of c8_claim_debt_min_transfer: a 250 debt against a 100
bankroll pays out exactly 100. -/
theorem c8_claim_debt_min_transfer_witness :
    ∃ g2 p2,
      process_claim_craps_debt bankGame100 posDebt250
        = Except.ok (g2, p2, min posDebt250.unpaid_debt bankGame100.house_bankroll)
      ∧ g2.house_bankroll
          = bankGame100.house_bankroll
              - min posDebt250.unpaid_debt bankGame100.house_bankroll
      ∧ p2.unpaid_debt
          = posDebt250.unpaid_debt
              - min posDebt250.unpaid_debt bankGame100.house_bankroll
      ∧ ((posDebt250.unpaid_debt = 0 ∨ bankGame100.house_bankroll = 0) →
           g2 = bankGame100 ∧ p2 = posDebt250) :=
  c8_claim_debt_min_transfer bankGame100 posDebt250 (by decide)

/-- C9: claimWinnings is gated on solvency: with pending_winnings above the
house bankroll it fails with InsufficientFunds (no state change); otherwise it
zeroes pending_winnings, debits the bankroll, and books the payout. -/
theorem c9_claim_winnings_solvency_gate (g : CrapsGame) (p : CrapsPosition)
    (hpend : 0 < p.pending_winnings)
    (hbound : g.total_payouts + p.pending_winnings ≤ U64MAX) :
    (g.house_bankroll < p.pending_winnings →
       process_claim_craps_winnings g p = Except.error Err.insufficientFunds)
    ∧ (p.pending_winnings ≤ g.house_bankroll →
       ∃ g2 p2, process_claim_craps_winnings g p
           = Except.ok (g2, p2, p.pending_winnings)
         ∧ p2.pending_winnings = 0
         ∧ g2.house_bankroll = g.house_bankroll - p.pending_winnings
         ∧ g2.total_payouts = g.total_payouts + p.pending_winnings) := by
  constructor
  · intro hlt
    simp only [process_claim_craps_winnings]
    rw [if_neg (by omega), if_pos hlt]
  · intro hge
    simp only [process_claim_craps_winnings]
    rw [if_neg (by omega), if_neg (by omega)]
    rw [toE_checkedSub (by omega)]
    simp only [ok_bind]
    rw [toE_checkedAdd hbound]
    simp only [ok_bind]
    exact ⟨_, _, rfl, rfl, rfl, rfl⟩

/-- Concrete instance of c9_claim_winnings_solvency_gate: 40 pending against a
100 bankroll pays out in full. -/
theorem c9_claim_winnings_solvency_gate_witness :
    (bankGame100.house_bankroll < posPending40.pending_winnings →
       process_claim_craps_winnings bankGame100 posPending40
         = Except.error Err.insufficientFunds)
    ∧ (posPending40.pending_winnings ≤ bankGame100.house_bankroll →
       ∃ g2 p2, process_claim_craps_winnings bankGame100 posPending40
           = Except.ok (g2, p2, posPending40.pending_winnings)
         ∧ p2.pending_winnings = 0
         ∧ g2.house_bankroll
             = bankGame100.house_bankroll - posPending40.pending_winnings
         ∧ g2.total_payouts
             = bankGame100.total_payouts + posPending40.pending_winnings) :=
  c9_claim_winnings_solvency_gate bankGame100 posPending40 (by decide) (by decide)

/-- C10: a bet category in 16..25 or at 29 and above is never accepted by
placeBet: it can never return Ok for such a category, and for an otherwise
admissible stake it is rejected with InvalidBetType, so the settlement-only
bet families can never become nonzero through placement. -/
theorem c10_invalid_bet_categories_rejected (g : CrapsGame) (p : CrapsPosition) (bt pt amount : Nat)
    (hbt : (16 ≤ bt ∧ bt ≤ 25) ∨ 29 ≤ bt) :
    (∀ gp, process_place_craps_bet g p bt pt amount ≠ Except.ok gp)
    ∧ (0 < amount → amount ≤ MAX_BET_AMOUNT →
       g.reserved_payouts ≤ g.house_bankroll →
       amount ≤ g.house_bankroll - g.reserved_payouts →
       process_place_craps_bet g p bt pt amount
         = Except.error Err.invalidBetType) := by
  constructor
  · intro gp hok
    simp only [process_place_craps_bet, calculate_max_payout_invalid bt pt amount hbt,
      ok_bind] at hok
    by_cases h0 : amount = 0
    · rw [if_pos h0] at hok
      exact Except.noConfusion hok
    rw [if_neg h0] at hok
    by_cases hmx : amount > MAX_BET_AMOUNT
    · rw [if_pos hmx] at hok
      exact Except.noConfusion hok
    rw [if_neg hmx] at hok
    by_cases hrb : g.reserved_payouts ≤ g.house_bankroll
    · rw [toE_checkedSub hrb] at hok
      simp only [ok_bind] at hok
      by_cases hav : amount > g.house_bankroll - g.reserved_payouts
      · rw [if_pos hav] at hok
        exact Except.noConfusion hok
      · rw [if_neg hav] at hok
        rw [applyBet_invalid bt pt amount hbt] at hok
        simp only [err_bind] at hok
        exact Except.noConfusion hok
    · rw [toE_checkedSub_err (show g.house_bankroll < g.reserved_payouts by omega)] at hok
      simp only [err_bind] at hok
      exact Except.noConfusion hok
  · intro h0 hmax hrb havail
    simp only [process_place_craps_bet, calculate_max_payout_invalid bt pt amount hbt,
      ok_bind]
    rw [if_neg (show ¬amount = 0 by omega)]
    rw [if_neg (show ¬amount > MAX_BET_AMOUNT by omega)]
    rw [toE_checkedSub hrb]
    simp only [ok_bind]
    rw [if_neg (show ¬amount > g.house_bankroll - g.reserved_payouts by omega)]
    rw [applyBet_invalid bt pt amount hbt]
    rfl

/-- Concrete instance of c10_invalid_bet_categories_rejected: category 16
(bonus small) is rejected outright. -/
theorem c10_invalid_bet_categories_rejected_witness :
    process_place_craps_bet initialGame1000 (emptyPosition 1) 16 0 50
      = Except.error Err.invalidBetType :=
  (c10_invalid_bet_categories_rejected initialGame1000 (emptyPosition 1) 16 0 50
      (by decide)).2 (by decide) (by decide) (by decide) (by decide)
